import Mathlib

/-!
Verification of the asynchronous job lifecycle manager of the
baker-street-labs repository (holmes_awx_agent and holmes_dns_agent).

The Python sources are embedded shallowly:
- pydantic models become Lean structures;
- `datetime` values become `Int` (seconds); `timedelta(minutes=m)` is `m * 60`;
- `uuid.UUID` becomes `Int` (only equality of identifiers matters);
- pydantic `.json()` / `.parse_raw()` become explicit encoders/parsers over a
  small JSON value type, mirroring pydantic v1 validation (extra keys are
  ignored, missing keys take the declared default, wrong-typed values fail);
- the `JobManager` instance state (`_jobs` dict, the cache directory, and
  `_last_purge`) becomes an explicit `Store` value threaded through the
  operations; the cache directory is an association list from job id
  (the file name stem) to the file's JSON contents;
- a raised exception becomes an `Except` error value.
-/

/-- JSON values, the codomain of pydantic serialization.  Objects keep the
field insertion order, as Python dicts do. -/
inductive Json where
  | null : Json
  | str : String → Json
  | num : Int → Json
  | bool : Bool → Json
  | arr : List Json → Json
  | obj : List (String × Json) → Json

/-- Look up a field of a JSON object field list (first occurrence). -/
def Json.getField (fs : List (String × Json)) (k : String) : Option Json :=
  match fs.find? (fun p => p.1 == k) with
  | some p => some p.2
  | none => none

/-- Read a JSON value as a string. -/
def Json.asStr : Json → Option String
  | .str s => some s
  | _ => none

/-- Read a JSON value as an integer. -/
def Json.asInt : Json → Option Int
  | .num n => some n
  | _ => none

/-- Read a JSON value as an object (a Python `Dict[str, Any]`). -/
def Json.asObj : Json → Option (List (String × Json))
  | .obj fs => some fs
  | _ => none

/-- Pydantic validation of an `Optional[α]` field with default `None`:
an absent or null field is `none`; a present field must convert. -/
def Json.optField (fs : List (String × Json)) (k : String)
    (conv : Json → Option α) : Option (Option α) :=
  match Json.getField fs k with
  | none => some none
  | some .null => some none
  | some v => (conv v).map some

/-- Pydantic validation of a required field: absent or ill-typed fails. -/
def Json.reqField (fs : List (String × Json)) (k : String)
    (conv : Json → Option α) : Option α :=
  match Json.getField fs k with
  | some v => conv v
  | none => none

/-- Pydantic validation of a `Dict[str, Any]` field with default `{}`. -/
def Json.dictField (fs : List (String × Json)) (k : String) :
    Option (List (String × Json)) :=
  match Json.getField fs k with
  | none => some []
  | some (.obj o) => some o
  | some _ => none

/-- Pydantic validation of a `Dict[str, str]` field with default `{}`. -/
def Json.strDictField (fs : List (String × Json)) (k : String) :
    Option (List (String × String)) :=
  match Json.getField fs k with
  | none => some []
  | some (.obj o) => o.mapM (fun p => (Json.asStr p.2).map (fun s => (p.1, s)))
  | some _ => none

/-- Encode an optional value, `None` becoming JSON null (as `.json()` does). -/
def Json.ofOpt (f : α → Json) : Option α → Json
  | none => .null
  | some a => f a

/-- Timestamps: `datetime.utcnow()` is an abstract tick count in seconds. -/
abbrev Time := Int

/-- Job identifiers: `uuid4()` values, abstracted to integers. -/
abbrev UUID := Int

/-- Association-list lookup, mirroring `dict.get` (and file lookup in the
cache directory, keyed by the file name stem). -/
def alist_lookup (l : List (UUID × β)) (k : UUID) : Option β :=
  match l.find? (fun p => p.1 == k) with
  | some p => some p.2
  | none => none

/-- Association-list insertion, mirroring `d[k] = v` on a Python dict
(replace in place if the key exists, append otherwise). -/
def alist_insert (l : List (UUID × β)) (k : UUID) (v : β) : List (UUID × β) :=
  if (l.find? (fun p => p.1 == k)).isSome then
    l.map (fun p => if p.1 == k then (k, v) else p)
  else
    l ++ [(k, v)]

/-- Association-list removal, mirroring `del d[k]` / `path.unlink()`. -/
def alist_erase (l : List (UUID × β)) (k : UUID) : List (UUID × β) :=
  l.filter (fun p => p.1 != k)

namespace AWX

/-- Status for asynchronous AWX agent operations (`AWXAgentJobStatus`). -/
inductive AWXAgentJobStatus where
  | received | validating | launching | monitoring | completed | failed | canceled
deriving DecidableEq, Repr

/-- Enum value strings, as serialized by `.json()` (str Enum values). -/
def AWXAgentJobStatus.toStr : AWXAgentJobStatus → String
  | .received => "received"
  | .validating => "validating"
  | .launching => "launching"
  | .monitoring => "monitoring"
  | .completed => "completed"
  | .failed => "failed"
  | .canceled => "canceled"

/-- Enum validation from a value string, as pydantic parsing does. -/
def AWXAgentJobStatus.ofStr : String → Option AWXAgentJobStatus
  | "received" => some .received
  | "validating" => some .validating
  | "launching" => some .launching
  | "monitoring" => some .monitoring
  | "completed" => some .completed
  | "failed" => some .failed
  | "canceled" => some .canceled
  | _ => none

/-- Membership in the tuple tested by `update_status` in
`agents/holmes_awx_agent/job_manager.py` line 85: COMPLETED, FAILED, CANCELED. -/
def AWXAgentJobStatus.isTerminal : AWXAgentJobStatus → Bool
  | .completed => true
  | .failed => true
  | .canceled => true
  | _ => false

/-- AWX-side job status values (`AWXJobStatus`). -/
inductive AWXJobStatus where
  | new | pending | waiting | running | successful | failed | error | canceled
deriving DecidableEq, Repr

/-- Enum value strings of `AWXJobStatus`. -/
def AWXJobStatus.toStr : AWXJobStatus → String
  | .new => "new"
  | .pending => "pending"
  | .waiting => "waiting"
  | .running => "running"
  | .successful => "successful"
  | .failed => "failed"
  | .error => "error"
  | .canceled => "canceled"

/-- Enum validation of `AWXJobStatus` from a value string; an unknown value
raises ValueError in Python (`none` here). -/
def AWXJobStatus.ofStr : String → Option AWXJobStatus
  | "new" => some .new
  | "pending" => some .pending
  | "waiting" => some .waiting
  | "running" => some .running
  | "successful" => some .successful
  | "failed" => some .failed
  | "error" => some .error
  | "canceled" => some .canceled
  | _ => none

/-- Request payload for launching an AWX job template (`JobTemplateRequest`).
All fields are optional or defaulted. -/
structure JobTemplateRequest where
  job_template_id : Option Int
  job_template_name : Option String
  extra_vars : List (String × Json)
  inventory_id : Option Int
  limit : Option String
  metadata : List (String × String)

/-- Serialization of `JobTemplateRequest` by pydantic `.json()`. -/
def JobTemplateRequest.toJson (r : JobTemplateRequest) : Json :=
  .obj [
    ("job_template_id", Json.ofOpt .num r.job_template_id),
    ("job_template_name", Json.ofOpt .str r.job_template_name),
    ("extra_vars", .obj r.extra_vars),
    ("inventory_id", Json.ofOpt .num r.inventory_id),
    ("limit", Json.ofOpt .str r.limit),
    ("metadata", .obj (r.metadata.map (fun p => (p.1, Json.str p.2))))
  ]

/-- Pydantic v1 validation of `JobTemplateRequest`: unknown keys are ignored,
absent optional fields default, wrong-typed values fail. -/
def JobTemplateRequest.parse (j : Json) : Option JobTemplateRequest :=
  match j with
  | .obj fs => do
    let jtid ← Json.optField fs "job_template_id" Json.asInt
    let jtname ← Json.optField fs "job_template_name" Json.asStr
    let ev ← Json.dictField fs "extra_vars"
    let inv ← Json.optField fs "inventory_id" Json.asInt
    let lim ← Json.optField fs "limit" Json.asStr
    let md ← Json.strDictField fs "metadata"
    pure ⟨jtid, jtname, ev, inv, lim, md⟩
  | _ => none

/-- Request payload for natural language orchestration (`OrchestrationRequest`).
The `request` text is required with `min_length=10`. -/
structure OrchestrationRequest where
  request : String
  context : List (String × Json)
  metadata : List (String × String)

/-- Serialization of `OrchestrationRequest` by pydantic `.json()`. -/
def OrchestrationRequest.toJson (r : OrchestrationRequest) : Json :=
  .obj [
    ("request", .str r.request),
    ("context", .obj r.context),
    ("metadata", .obj (r.metadata.map (fun p => (p.1, Json.str p.2))))
  ]

/-- Pydantic v1 validation of `OrchestrationRequest` (required `request`
string of length at least 10). -/
def OrchestrationRequest.parse (j : Json) : Option OrchestrationRequest :=
  match j with
  | .obj fs => do
    let req ← Json.reqField fs "request" Json.asStr
    if req.length < 10 then none else
    let ctx ← Json.dictField fs "context"
    let md ← Json.strDictField fs "metadata"
    pure ⟨req, ctx, md⟩
  | _ => none

/-- State container for an AWX job execution (`AWXJob`). -/
structure AWXJob where
  job_id : UUID
  status : AWXAgentJobStatus
  requested_at : Time
  completed_at : Option Time
  request : JobTemplateRequest
  message : Option String
  awx_job_id : Option Int
  awx_job_status : Option AWXJobStatus
  awx_job_output : Option String
  awx_job_facts : Option (List (String × Json))
  awx_error : Option String
  parent_job_id : Option UUID
  child_job_ids : List UUID
  step_number : Option Int
  total_steps : Option Int

/-- Serialization of `AWXJob` by pydantic `.json()`, all fields included. -/
def AWXJob.toJson (j : AWXJob) : Json :=
  .obj [
    ("job_id", .num j.job_id),
    ("status", .str j.status.toStr),
    ("requested_at", .num j.requested_at),
    ("completed_at", Json.ofOpt .num j.completed_at),
    ("request", j.request.toJson),
    ("message", Json.ofOpt .str j.message),
    ("awx_job_id", Json.ofOpt .num j.awx_job_id),
    ("awx_job_status", Json.ofOpt (fun s => .str s.toStr) j.awx_job_status),
    ("awx_job_output", Json.ofOpt .str j.awx_job_output),
    ("awx_job_facts", Json.ofOpt .obj j.awx_job_facts),
    ("awx_error", Json.ofOpt .str j.awx_error),
    ("parent_job_id", Json.ofOpt .num j.parent_job_id),
    ("child_job_ids", .arr (j.child_job_ids.map Json.num)),
    ("step_number", Json.ofOpt .num j.step_number),
    ("total_steps", Json.ofOpt .num j.total_steps)
  ]

/-- Pydantic v1 validation of `AWXJob` from a disk record
(`AWXJob.parse_raw`).  `job_id` and `requested_at` carry `default_factory`
generators in the source; every record produced by `.json()` contains them,
so they are treated as required here.  `status` defaults to RECEIVED,
`child_job_ids` to the empty list; extra keys are ignored. -/
def AWXJob.parse (j : Json) : Option AWXJob :=
  match j with
  | .obj fs => do
    let jid ← Json.reqField fs "job_id" Json.asInt
    let st ← match Json.getField fs "status" with
      | none => some AWXAgentJobStatus.received
      | some v => (Json.asStr v).bind AWXAgentJobStatus.ofStr
    let rat ← Json.reqField fs "requested_at" Json.asInt
    let cat ← Json.optField fs "completed_at" Json.asInt
    let req ← Json.reqField fs "request" JobTemplateRequest.parse
    let msg ← Json.optField fs "message" Json.asStr
    let ajid ← Json.optField fs "awx_job_id" Json.asInt
    let ajst ← Json.optField fs "awx_job_status"
      (fun v => (Json.asStr v).bind AWXJobStatus.ofStr)
    let ajout ← Json.optField fs "awx_job_output" Json.asStr
    let ajfacts ← Json.optField fs "awx_job_facts" Json.asObj
    let aerr ← Json.optField fs "awx_error" Json.asStr
    let pjid ← Json.optField fs "parent_job_id" Json.asInt
    let cjids ← match Json.getField fs "child_job_ids" with
      | none => some ([] : List UUID)
      | some (.arr xs) => xs.mapM Json.asInt
      | some _ => none
    let stepn ← Json.optField fs "step_number" Json.asInt
    let totn ← Json.optField fs "total_steps" Json.asInt
    pure ⟨jid, st, rat, cat, req, msg, ajid, ajst, ajout, ajfacts, aerr,
          pjid, cjids, stepn, totn⟩
  | _ => none

/-- State container for LLM orchestration requests (`OrchestrationJob`). -/
structure OrchestrationJob where
  job_id : UUID
  status : AWXAgentJobStatus
  requested_at : Time
  completed_at : Option Time
  request : OrchestrationRequest
  message : Option String
  decomposed_tasks : List (List (String × Json))
  awx_jobs : List AWXJob
  llm_response : Option String
  llm_error : Option String

/-- Serialization of `OrchestrationJob` by pydantic `.json()`. -/
def OrchestrationJob.toJson (j : OrchestrationJob) : Json :=
  .obj [
    ("job_id", .num j.job_id),
    ("status", .str j.status.toStr),
    ("requested_at", .num j.requested_at),
    ("completed_at", Json.ofOpt .num j.completed_at),
    ("request", j.request.toJson),
    ("message", Json.ofOpt .str j.message),
    ("decomposed_tasks", .arr (j.decomposed_tasks.map Json.obj)),
    ("awx_jobs", .arr (j.awx_jobs.map AWXJob.toJson)),
    ("llm_response", Json.ofOpt .str j.llm_response),
    ("llm_error", Json.ofOpt .str j.llm_error)
  ]

/-- Pydantic v1 validation of `OrchestrationJob` from a disk record
(`OrchestrationJob.parse_raw`), with the same conventions as `AWXJob.parse`. -/
def OrchestrationJob.parse (j : Json) : Option OrchestrationJob :=
  match j with
  | .obj fs => do
    let jid ← Json.reqField fs "job_id" Json.asInt
    let st ← match Json.getField fs "status" with
      | none => some AWXAgentJobStatus.received
      | some v => (Json.asStr v).bind AWXAgentJobStatus.ofStr
    let rat ← Json.reqField fs "requested_at" Json.asInt
    let cat ← Json.optField fs "completed_at" Json.asInt
    let req ← Json.reqField fs "request" OrchestrationRequest.parse
    let msg ← Json.optField fs "message" Json.asStr
    let dts ← match Json.getField fs "decomposed_tasks" with
      | none => some ([] : List (List (String × Json)))
      | some (.arr xs) => xs.mapM Json.asObj
      | some _ => none
    let ajs ← match Json.getField fs "awx_jobs" with
      | none => some ([] : List AWXJob)
      | some (.arr xs) => xs.mapM AWXJob.parse
      | some _ => none
    let lresp ← Json.optField fs "llm_response" Json.asStr
    let lerr ← Json.optField fs "llm_error" Json.asStr
    pure ⟨jid, st, rat, cat, req, msg, dts, ajs, lresp, lerr⟩
  | _ => none

/-- The union `Union[AWXJob, OrchestrationJob]` stored by the manager. -/
inductive JobRecord where
  | awx (j : AWXJob)
  | orch (j : OrchestrationJob)

/-- Identifier of either record kind. -/
def JobRecord.job_id : JobRecord → UUID
  | .awx j => j.job_id
  | .orch j => j.job_id

/-- Status of either record kind. -/
def JobRecord.status : JobRecord → AWXAgentJobStatus
  | .awx j => j.status
  | .orch j => j.status

/-- Completion timestamp of either record kind. -/
def JobRecord.completed_at : JobRecord → Option Time
  | .awx j => j.completed_at
  | .orch j => j.completed_at

/-- Creation timestamp of either record kind. -/
def JobRecord.requested_at : JobRecord → Time
  | .awx j => j.requested_at
  | .orch j => j.requested_at

/-- Whether a record is of the AWX (single-step) kind. -/
def JobRecord.isAwx : JobRecord → Bool
  | .awx _ => true
  | .orch _ => false

/-- Serialization `job.json()` of either record kind. -/
def JobRecord.toJson : JobRecord → Json
  | .awx j => j.toJson
  | .orch j => j.toJson

/-- Deserialization order of `get_job` and the purge scan: try `AWXJob`
first, then `OrchestrationJob` (job_manager.py lines 57-60). -/
def JobRecord.tryParse (data : Json) : Option JobRecord :=
  match AWXJob.parse data with
  | some j => some (.awx j)
  | none => (OrchestrationJob.parse data).map .orch

end AWX

namespace AWX

/-- Set the `status` field on either record kind (`job.status = status`). -/
def JobRecord.set_status : JobRecord → AWXAgentJobStatus → JobRecord
  | .awx j, st => .awx { j with status := st }
  | .orch j, st => .orch { j with status := st }

/-- Set the `message` field on either record kind (`job.message = message`). -/
def JobRecord.set_message : JobRecord → String → JobRecord
  | .awx j, m => .awx { j with message := some m }
  | .orch j, m => .orch { j with message := some m }

/-- Set the `completed_at` field on either record kind. -/
def JobRecord.set_completed_at : JobRecord → Option Time → JobRecord
  | .awx j, t => .awx { j with completed_at := t }
  | .orch j, t => .orch { j with completed_at := t }

/-- Keyword arguments accepted by `update_status` via `**kwargs` and applied
with `setattr`.  At every call site in the repository
(`agents/holmes_awx_agent/main.py` line 199) the kwargs update only the
AWX result fields `awx_job_id` and `awx_job_status`; the outer `Option`
is presence of the keyword, the inner value is assigned verbatim. -/
structure ResultUpdates where
  awx_job_id : Option (Option Int)
  awx_job_status : Option (Option AWXJobStatus)

/-- Empty kwargs. -/
def ResultUpdates.empty : ResultUpdates := ⟨none, none⟩

/-- Apply `setattr(job, key, value)` for each kwarg to an `AWXJob`. -/
def AWXJob.apply_updates (j : AWXJob) (kw : ResultUpdates) : AWXJob :=
  let j := match kw.awx_job_id with
    | some v => { j with awx_job_id := v }
    | none => j
  match kw.awx_job_status with
  | some v => { j with awx_job_status := v }
  | none => j

/-- Apply kwargs to either record kind.  The repository only ever passes
these kwargs for AWX records; pydantic would reject unknown attributes on
an `OrchestrationJob`, and no call site does so. -/
def JobRecord.apply_updates : JobRecord → ResultUpdates → JobRecord
  | .awx j, kw => .awx (j.apply_updates kw)
  | .orch j, _ => .orch j

/-- The in-place record mutation performed by `update_status` before the
terminal-state check: set `status`, overwrite `message` when the argument
is truthy (a `None` or empty message leaves the field alone), and apply
the kwargs with `setattr`. -/
def JobRecord.transition_record (j : JobRecord) (status : AWXAgentJobStatus)
    (message : Option String) (kw : ResultUpdates) : JobRecord :=
  let j := j.set_status status
  let j := match message with
    | some m => if m = "" then j else j.set_message m
    | none => j
  j.apply_updates kw

/-- The full record mutation of one `update_status` call: the transition
plus the `completed_at` stamp when the new status is terminal. -/
def JobRecord.transitioned (j : JobRecord) (status : AWXAgentJobStatus)
    (message : Option String) (kw : ResultUpdates) (now : Time) : JobRecord :=
  if status.isTerminal then
    (j.transition_record status message kw).set_completed_at (some now)
  else
    j.transition_record status message kw

/-- Purge comparison `job.completed_at and job.completed_at < cutoff`
(a `None` completion time is falsy, so such jobs are never purged). -/
def is_older (completed_at : Option Time) (cutoff : Time) : Bool :=
  match completed_at with
  | some c => c < cutoff
  | none => false

/-- State of a `JobManager` instance: the in-memory `_jobs` dict, the disk
cache directory (file stem to JSON contents), whether disk writes succeed
(modelling I/O failure of `Path.write_text`), and `_last_purge`. -/
structure Store where
  jobs : List (UUID × JobRecord)
  disk : List (UUID × Json)
  disk_ok : Bool
  last_purge : Option Time

namespace JobManager

/-- Interval constant `_PURGE_INTERVAL_SECONDS`. -/
def PURGE_INTERVAL_SECONDS : Int := 60

/-- JobManager.purge_old_jobs: drop in-memory jobs completed before the
cutoff, then scan the cache directory, deleting unparseable files and files
whose stored `completed_at` is before the cutoff
(`retention` is `settings.job_retention_minutes`). -/
def purge_old_jobs (retention : Int) (now : Time) (s : Store) : Store :=
  let cutoff := now - retention * 60
  { s with
    jobs := s.jobs.filter (fun p => !(is_older p.2.completed_at cutoff)),
    disk := s.disk.filter (fun p =>
      match JobRecord.tryParse p.2 with
      | none => false
      | some job => !(is_older job.completed_at cutoff)) }

/-- JobManager._maybe_purge: run a purge pass unless one ran within the
last `_PURGE_INTERVAL_SECONDS` seconds. -/
def maybe_purge (retention : Int) (now : Time) (s : Store) : Store :=
  match s.last_purge with
  | some lp =>
    if now - lp < PURGE_INTERVAL_SECONDS then s
    else { purge_old_jobs retention now s with last_purge := some now }
  | none => { purge_old_jobs retention now s with last_purge := some now }

/-- JobManager.add_job: insert into the memory map, opportunistically purge,
and remove any stale cache file for the same id. -/
def add_job (retention : Int) (now : Time) (s : Store) (job : JobRecord) :
    Store × JobRecord :=
  let s := { s with jobs := alist_insert s.jobs job.job_id job }
  let s := maybe_purge retention now s
  let s := { s with disk := alist_erase s.disk job.job_id }
  (s, job)

/-- JobManager.get_job: memory lookup first; on a miss, read the cache file
if present, try `AWXJob` then `OrchestrationJob`, delete the file when both
parses fail, otherwise reinsert the hydrated record (keyed by the parsed
record's own `job_id`) and purge opportunistically. -/
def get_job (retention : Int) (now : Time) (s : Store) (job_id : UUID) :
    Store × Option JobRecord :=
  match alist_lookup s.jobs job_id with
  | some job => (s, some job)
  | none =>
    match alist_lookup s.disk job_id with
    | none => (s, none)
    | some data =>
      match JobRecord.tryParse data with
      | none => ({ s with disk := alist_erase s.disk job_id }, none)
      | some job =>
        let s := { s with jobs := alist_insert s.jobs job.job_id job }
        (maybe_purge retention now s, some job)

/-- JobManager.update_status: look up in memory only (`None` when absent);
set `status`, overwrite `message` when truthy, apply kwargs via `setattr`;
when the new status is COMPLETED, FAILED or CANCELED also stamp
`completed_at = utcnow()` and flush the record to disk (`_persist_job`,
which has no exception handling: a failed write raises out of
`update_status` after the in-memory mutation has happened, represented by
the `.error` result). -/
def update_status (retention : Int) (now : Time) (s : Store) (job_id : UUID)
    (status : AWXAgentJobStatus) (message : Option String)
    (kw : ResultUpdates) : Store × Except Unit (Option JobRecord) :=
  match alist_lookup s.jobs job_id with
  | none => (s, .ok none)
  | some job =>
    let job := job.transition_record status message kw
    if status.isTerminal then
      let job := job.set_completed_at (some now)
      let s := { s with jobs := alist_insert s.jobs job_id job }
      if s.disk_ok then
        let s := { s with disk := alist_insert s.disk job.job_id job.toJson }
        (maybe_purge retention now s, .ok (some job))
      else
        (s, .error ())
    else
      let s := { s with jobs := alist_insert s.jobs job_id job }
      (maybe_purge retention now s, .ok (some job))

end JobManager

end AWX

namespace DNS

/-- Status for asynchronous record operations (`RecordJobStatus`). -/
inductive RecordJobStatus where
  | received | validating | applying | documenting | completed | failed
deriving DecidableEq, Repr

/-- Enum value strings of `RecordJobStatus`. -/
def RecordJobStatus.toStr : RecordJobStatus → String
  | .received => "received"
  | .validating => "validating"
  | .applying => "applying"
  | .documenting => "documenting"
  | .completed => "completed"
  | .failed => "failed"

/-- Enum validation of `RecordJobStatus` from a value string. -/
def RecordJobStatus.ofStr : String → Option RecordJobStatus
  | "received" => some .received
  | "validating" => some .validating
  | "applying" => some .applying
  | "documenting" => some .documenting
  | "completed" => some .completed
  | "failed" => some .failed
  | _ => none

/-- Membership in the tuple tested by `update_status` in
`src/services/holmes_dns_agent/job_manager.py` line 77: COMPLETED, FAILED. -/
def RecordJobStatus.isTerminal : RecordJobStatus → Bool
  | .completed => true
  | .failed => true
  | _ => false

/-- Supported DNS record types (`RecordType`). -/
inductive RecordType where
  | A | AAAA | CNAME | TXT | MX | NS | PTR | SRV
deriving DecidableEq, Repr

/-- Enum value strings of `RecordType`. -/
def RecordType.toStr : RecordType → String
  | .A => "A"
  | .AAAA => "AAAA"
  | .CNAME => "CNAME"
  | .TXT => "TXT"
  | .MX => "MX"
  | .NS => "NS"
  | .PTR => "PTR"
  | .SRV => "SRV"

/-- Enum validation of `RecordType` from a value string. -/
def RecordType.ofStr : String → Option RecordType
  | "A" => some .A
  | "AAAA" => some .AAAA
  | "CNAME" => some .CNAME
  | "TXT" => some .TXT
  | "MX" => some .MX
  | "NS" => some .NS
  | "PTR" => some .PTR
  | "SRV" => some .SRV
  | _ => none

/-- The `lower_case_fqdn` validator on `zone` and `name`: reject values
without a dot, otherwise strip trailing dots and lowercase. -/
def lower_case_fqdn (value : String) : Option String :=
  if value.data.contains '.' then
    some (String.mk (((value.data.reverse.dropWhile (fun c => c == '.')).reverse).map
      Char.toLower))
  else
    none

/-- Request payload for creating or updating a DNS record (`RecordRequest`).
Stored values of `zone` and `name` have already passed `lower_case_fqdn`. -/
structure RecordRequest where
  zone : String
  name : String
  record_type : RecordType
  content : String
  ttl : Int
  metadata : List (String × String)

/-- Serialization of `RecordRequest` by pydantic `.json()`. -/
def RecordRequest.toJson (r : RecordRequest) : Json :=
  .obj [
    ("zone", .str r.zone),
    ("name", .str r.name),
    ("record_type", .str r.record_type.toStr),
    ("content", .str r.content),
    ("ttl", .num r.ttl),
    ("metadata", .obj (r.metadata.map (fun p => (p.1, Json.str p.2))))
  ]

/-- Pydantic v1 validation of `RecordRequest`: `zone`, `name` and `content`
are required, the `lower_case_fqdn` validator runs on `zone` and `name`,
`ttl` defaults to 60 and must lie in `[1, 86400]`, `record_type` defaults
to A. -/
def RecordRequest.parse (j : Json) : Option RecordRequest :=
  match j with
  | .obj fs => do
    let zone ← (Json.reqField fs "zone" Json.asStr).bind lower_case_fqdn
    let name ← (Json.reqField fs "name" Json.asStr).bind lower_case_fqdn
    let rt ← match Json.getField fs "record_type" with
      | none => some RecordType.A
      | some v => (Json.asStr v).bind RecordType.ofStr
    let content ← Json.reqField fs "content" Json.asStr
    let ttl ← match Json.getField fs "ttl" with
      | none => some (60 : Int)
      | some v => (Json.asInt v).bind (fun n : Int => if 1 ≤ n ∧ n ≤ 86400 then some n else none)
    let md ← Json.strDictField fs "metadata"
    pure ⟨zone, name, rt, content, ttl, md⟩
  | _ => none

/-- State container for a record management job (`RecordJob`). -/
structure RecordJob where
  job_id : UUID
  status : RecordJobStatus
  requested_at : Time
  completed_at : Option Time
  request : RecordRequest
  message : Option String
  powerdns_response : Option (List (String × Json))
  doc_changes : Option (List String)

/-- Serialization of `RecordJob` by pydantic `.json()`. -/
def RecordJob.toJson (j : RecordJob) : Json :=
  .obj [
    ("job_id", .num j.job_id),
    ("status", .str j.status.toStr),
    ("requested_at", .num j.requested_at),
    ("completed_at", Json.ofOpt .num j.completed_at),
    ("request", j.request.toJson),
    ("message", Json.ofOpt .str j.message),
    ("powerdns_response", Json.ofOpt .obj j.powerdns_response),
    ("doc_changes", Json.ofOpt (fun l => .arr (l.map Json.str)) j.doc_changes)
  ]

/-- Pydantic v1 validation of `RecordJob` from a disk record
(`RecordJob.parse_raw`), with the same conventions as `AWX.AWXJob.parse`. -/
def RecordJob.parse (j : Json) : Option RecordJob :=
  match j with
  | .obj fs => do
    let jid ← Json.reqField fs "job_id" Json.asInt
    let st ← match Json.getField fs "status" with
      | none => some RecordJobStatus.received
      | some v => (Json.asStr v).bind RecordJobStatus.ofStr
    let rat ← Json.reqField fs "requested_at" Json.asInt
    let cat ← Json.optField fs "completed_at" Json.asInt
    let req ← Json.reqField fs "request" RecordRequest.parse
    let msg ← Json.optField fs "message" Json.asStr
    let presp ← Json.optField fs "powerdns_response" Json.asObj
    let dch ← Json.optField fs "doc_changes"
      (fun v => match v with
        | .arr xs => xs.mapM Json.asStr
        | _ => none)
    pure ⟨jid, st, rat, cat, req, msg, presp, dch⟩
  | _ => none

/-- Keyword arguments accepted by the DNS `update_status` via `**kwargs`:
the only call site passing extra fields
(`src/services/holmes_dns_agent/main.py` line 136) sets `doc_changes`. -/
structure DocUpdates where
  doc_changes : Option (Option (List String))

/-- Empty kwargs. -/
def DocUpdates.empty : DocUpdates := ⟨none⟩

/-- Apply `setattr(job, key, value)` for each kwarg to a `RecordJob`. -/
def RecordJob.apply_updates (j : RecordJob) (kw : DocUpdates) : RecordJob :=
  match kw.doc_changes with
  | some v => { j with doc_changes := v }
  | none => j

/-- The in-place record mutation of the DNS `update_status` before the
terminal-state check, as in the AWX manager. -/
def RecordJob.transition_record (j : RecordJob) (status : RecordJobStatus)
    (message : Option String) (kw : DocUpdates) : RecordJob :=
  let j := { j with status := status }
  let j := match message with
    | some m => if m = "" then j else { j with message := some m }
    | none => j
  j.apply_updates kw

/-- The full record mutation of one DNS `update_status` call. -/
def RecordJob.transitioned (j : RecordJob) (status : RecordJobStatus)
    (message : Option String) (kw : DocUpdates) (now : Time) : RecordJob :=
  if status.isTerminal then
    { j.transition_record status message kw with completed_at := some now }
  else
    j.transition_record status message kw

/-- Purge comparison, as in the AWX manager. -/
def is_older (completed_at : Option Time) (cutoff : Time) : Bool :=
  match completed_at with
  | some c => c < cutoff
  | none => false

/-- State of the DNS `JobManager` instance, as in the AWX manager. -/
structure Store where
  jobs : List (UUID × RecordJob)
  disk : List (UUID × Json)
  disk_ok : Bool
  last_purge : Option Time

namespace JobManager

/-- Interval constant `_PURGE_INTERVAL_SECONDS`. -/
def PURGE_INTERVAL_SECONDS : Int := 60

/-- JobManager.purge_old_jobs of the DNS agent (single record kind). -/
def purge_old_jobs (retention : Int) (now : Time) (s : Store) : Store :=
  let cutoff := now - retention * 60
  { s with
    jobs := s.jobs.filter (fun p => !(is_older p.2.completed_at cutoff)),
    disk := s.disk.filter (fun p =>
      match RecordJob.parse p.2 with
      | none => false
      | some job => !(is_older job.completed_at cutoff)) }

/-- JobManager._maybe_purge of the DNS agent. -/
def maybe_purge (retention : Int) (now : Time) (s : Store) : Store :=
  match s.last_purge with
  | some lp =>
    if now - lp < PURGE_INTERVAL_SECONDS then s
    else { purge_old_jobs retention now s with last_purge := some now }
  | none => { purge_old_jobs retention now s with last_purge := some now }

/-- JobManager.add_job of the DNS agent. -/
def add_job (retention : Int) (now : Time) (s : Store) (job : RecordJob) :
    Store × RecordJob :=
  let s := { s with jobs := alist_insert s.jobs job.job_id job }
  let s := maybe_purge retention now s
  let s := { s with disk := alist_erase s.disk job.job_id }
  (s, job)

/-- JobManager.get_job of the DNS agent: memory first, then cache file;
a file that fails to parse as a `RecordJob` is deleted and the lookup
reports `None`. -/
def get_job (retention : Int) (now : Time) (s : Store) (job_id : UUID) :
    Store × Option RecordJob :=
  match alist_lookup s.jobs job_id with
  | some job => (s, some job)
  | none =>
    match alist_lookup s.disk job_id with
    | none => (s, none)
    | some data =>
      match RecordJob.parse data with
      | none => ({ s with disk := alist_erase s.disk job_id }, none)
      | some job =>
        let s := { s with jobs := alist_insert s.jobs job.job_id job }
        (maybe_purge retention now s, some job)

/-- JobManager.update_status of the DNS agent; terminal statuses are
COMPLETED and FAILED, and `_persist_job` likewise has no exception
handling. -/
def update_status (retention : Int) (now : Time) (s : Store) (job_id : UUID)
    (status : RecordJobStatus) (message : Option String)
    (kw : DocUpdates) : Store × Except Unit (Option RecordJob) :=
  match alist_lookup s.jobs job_id with
  | none => (s, .ok none)
  | some job =>
    let job := job.transition_record status message kw
    if status.isTerminal then
      let job := { job with completed_at := some now }
      let s := { s with jobs := alist_insert s.jobs job_id job }
      if s.disk_ok then
        let s := { s with disk := alist_insert s.disk job.job_id job.toJson }
        (maybe_purge retention now s, .ok (some job))
      else
        (s, .error ())
    else
      let s := { s with jobs := alist_insert s.jobs job_id job }
      (maybe_purge retention now s, .ok (some job))

end JobManager

end DNS

namespace AWX

/-- Whether the second list is an initial segment of the first. -/
def listStartsWith : List Char → List Char → Bool
  | _, [] => true
  | [], _ :: _ => false
  | c :: cs, d :: ds => c == d && listStartsWith cs ds

/-- Whether the second list occurs as a contiguous segment of the first. -/
def listContainsSub : List Char → List Char → Bool
  | [], needle => needle.isEmpty
  | c :: rest, needle => listStartsWith (c :: rest) needle || listContainsSub rest needle

/-- Substring test, modelling the Python `in` operator on strings. -/
def strContains (haystack needle : String) : Bool :=
  listContainsSub haystack.toList needle.toList

/-- Lowercasing, modelling Python `str.lower()` for ASCII text. -/
def strToLower (s : String) : String :=
  String.mk (s.data.map Char.toLower)

/-- Replacement of underscores by dashes, modelling the call
`action.replace("_", "-")` (a single-character pattern, so charwise). -/
def dashify (s : String) : String :=
  String.mk (s.data.map (fun c => if c == '_' then '-' else c))

/-- Environment of one `AWXAdapter._request` call: the current wall clock,
the token minted by the k-th `POST /api/v2/tokens/` refresh, and the HTTP
status code of the k-th `client.request` attempt within this call. -/
structure AdapterEnv where
  now : Int
  fresh : Nat → String
  code : Nat → Nat

/-- Mutable adapter fields `_token` and `_token_expires`, plus a count of
refreshes performed (used to index `AdapterEnv.fresh`). -/
structure AdapterState where
  token : Option String
  token_expires : Option Int
  refreshes : Nat

namespace AWXAdapter

/-- AWXAdapter._get_token: refresh when the token is absent or within 60
seconds of its recorded expiry; a refresh mints a fresh token and records
expiry `now + 3600`. -/
def get_token (env : AdapterEnv) (st : AdapterState) : String × AdapterState :=
  match st.token with
  | none =>
    let t := env.fresh st.refreshes
    (t, ⟨some t, some (env.now + 3600), st.refreshes + 1⟩)
  | some t =>
    match st.token_expires with
    | some e =>
      if env.now ≥ e - 60 then
        let t2 := env.fresh st.refreshes
        (t2, ⟨some t2, some (env.now + 3600), st.refreshes + 1⟩)
      else (t, st)
    | none => (t, st)

/-- Outcome of `AWXAdapter._request`: `result` is `.ok k` when the response
of attempt `k` is returned to the caller and `.error c` when
`raise_for_status` raises `httpx.HTTPStatusError` for status code `c`;
`attempts` counts `client.request` calls; `tokens_used` lists the bearer
token of each attempt in order. -/
structure RequestOutcome where
  result : Except Nat Nat
  attempts : Nat
  tokens_used : List String
  state : AdapterState

/-- AWXAdapter._request (awx_adapter.py lines 73-100): issue the request
with a bearer token; on a 401 response, clear the stored token, force a
refresh via `_get_token`, reissue the request once, and then
`raise_for_status` on whatever response the last attempt produced. -/
def request (env : AdapterEnv) (st : AdapterState) : RequestOutcome :=
  let p1 := get_token env st
  let c1 := env.code 0
  if c1 = 401 then
    let st2 : AdapterState := { p1.2 with token := none, token_expires := none }
    let p2 := get_token env st2
    let c2 := env.code 1
    { result := if c2 ≥ 400 then .error c2 else .ok 1,
      attempts := 2, tokens_used := [p1.1, p2.1], state := p2.2 }
  else
    { result := if c1 ≥ 400 then .error c1 else .ok 0,
      attempts := 1, tokens_used := [p1.1], state := p1.2 }

end AWXAdapter

/-- The slice of an AWX job template used by the workflow (`JobTemplateInfo`). -/
structure JobTemplateInfo where
  id : Int
  name : String

/-- One entry of `decomposed_tasks` in the LangGraph state: a Python dict
whose keys appear as the workflow assigns them (`action` and `description`
at decomposition; `status`/`error`/`awx_job_id`/`awx_status`/`completed`
later). -/
structure GraphTask where
  action : String
  description : String
  status : Option String
  error : Option String
  awx_job_id : Option Int
  awx_status : Option String
  completed : Bool

/-- A freshly decomposed task (only `action` and `description` set). -/
def GraphTask.fresh (action description : String) : GraphTask :=
  ⟨action, description, none, none, none, none, false⟩

/-- The dict this task denotes, used when tasks are stored into the
`decomposed_tasks` field of an `OrchestrationJob`. -/
def GraphTask.toDict (t : GraphTask) : List (String × Json) :=
  [("action", Json.str t.action), ("description", Json.str t.description)]
  ++ (match t.awx_job_id with | some n => [("awx_job_id", Json.num n)] | none => [])
  ++ (match t.status with | some s => [("status", Json.str s)] | none => [])
  ++ (match t.error with | some e => [("error", Json.str e)] | none => [])
  ++ (match t.awx_status with | some s => [("awx_status", Json.str s)] | none => [])
  ++ (if t.completed then [("completed", Json.bool true)] else [])

/-- The LangGraph workflow state (`GraphState`); the unused `messages`
channel is omitted. -/
structure GraphState where
  user_request : String
  decomposed_tasks : List GraphTask
  current_task_index : Nat
  awx_job_ids : List Int
  completed_tasks : List GraphTask
  error : Option String
  context : List (String × Json)

/-- External collaborators of the workflow nodes: `search_job_template`
(resolution by name, `None` when absent), `launch_job_template` (the
returned `job_data` dict, or a raised exception message), and
`wait_for_job` (the final `job_data` dict, or a raised exception
message). -/
structure GraphEnv where
  search : String → Option JobTemplateInfo
  launch : Int → List (String × Json) → Except String (List (String × Json))
  wait : Int → Except String (List (String × Json))

/-- graph.analyze_request: pattern-match the lowercased request into a task
list and reset the bookkeeping fields. -/
def analyze_request (user_request : String) (context : List (String × Json)) :
    GraphState :=
  let request := strToLower user_request
  let tasks :=
    if strContains request "deploy" && strContains request "kubernetes" then
      [GraphTask.fresh "provision-k8s-cluster" "Provision Kubernetes cluster",
       GraphTask.fresh "configure-k8s" "Configure Kubernetes"]
    else if strContains request "install" then
      let package :=
        if strContains request "nginx" then "nginx"
        else if strContains request "docker" then "docker"
        else "nginx"
      [GraphTask.fresh ("install-" ++ package) ("Install " ++ package)]
    else
      [GraphTask.fresh "execute-request" user_request]
  ⟨user_request, tasks, 0, [], [], none, context⟩

/-- graph.launch_subtask: resolve `test-<action>` (falling back to
`test-hello-world`), launch it, and record the AWX job id; any failure is
caught, marking the task failed and setting the state error.  The launched
job id read from `job_data` is an integer and Python treats a missing or
zero id as "AWX did not return a job ID". -/
def launch_subtask (env : GraphEnv) (s : GraphState) : GraphState :=
  if s.current_task_index < s.decomposed_tasks.length then
    match s.decomposed_tasks.get? s.current_task_index with
    | none => s
    | some task =>
      let template_name := "test-" ++ dashify task.action
      let tmpl : Except String JobTemplateInfo :=
        match env.search template_name with
        | some t => .ok t
        | none =>
          match env.search "test-hello-world" with
          | some t => .ok t
          | none => .error ("Could not find job template for: " ++ task.action)
      let outcome : Except String Int := do
        let t ← tmpl
        let job_data ← env.launch t.id s.context
        match Json.getField job_data "id" with
        | some (.num id) =>
          if id ≠ 0 then pure id else .error "AWX did not return a job ID"
        | _ => .error "AWX did not return a job ID"
      match outcome with
      | .ok id =>
        let task := { task with awx_job_id := some id, status := some "launched" }
        { s with
          decomposed_tasks := s.decomposed_tasks.set s.current_task_index task,
          awx_job_ids := s.awx_job_ids ++ [id] }
      | .error e =>
        let task := { task with status := some "failed", error := some e }
        { s with
          decomposed_tasks := s.decomposed_tasks.set s.current_task_index task,
          error := some ("Failed to launch task " ++ task.action ++ ": " ++ e) }
  else s

/-- graph.wait_for_completion: poll the most recently launched AWX job to
its final backend status; on success advance `current_task_index`, on any
other status or a raised exception set the state error. -/
def wait_for_completion (env : GraphEnv) (s : GraphState) : GraphState :=
  match s.awx_job_ids.getLast? with
  | none => s
  | some current_job_id =>
    match env.wait current_job_id with
    | .ok job_data =>
      let status := match Json.getField job_data "status" with
        | some (.str st) => st
        | _ => "unknown"
      match s.decomposed_tasks.get? s.current_task_index with
      | some task =>
        let task := { task with awx_status := some status, completed := true }
        let s := { s with
          decomposed_tasks := s.decomposed_tasks.set s.current_task_index task }
        if status = "successful" then
          { s with current_task_index := s.current_task_index + 1 }
        else
          { s with error := some ("Job " ++ toString current_job_id
              ++ " failed with status: " ++ status) }
      | none => s
    | .error e =>
      { s with error := some ("Error waiting for job "
          ++ toString current_job_id ++ ": " ++ e) }

/-- graph.handle_callback: a placeholder that returns the state unchanged. -/
def handle_callback (s : GraphState) : GraphState := s

/-- Targets of the conditional edge out of `handle_callback`. -/
inductive NextNode where
  | launch_subtask | finalize
deriving DecidableEq, Repr

/-- graph.check_next_task: finalize on any recorded error, otherwise loop
while tasks remain. -/
def check_next_task (s : GraphState) : NextNode :=
  if s.error.isSome then .finalize
  else if s.current_task_index < s.decomposed_tasks.length then .launch_subtask
  else .finalize

/-- graph.finalize: mark every task that did not fail as completed and
append all tasks to `completed_tasks`. -/
def finalize (s : GraphState) : GraphState :=
  let tasks := s.decomposed_tasks.map (fun t =>
    if t.status ≠ some "failed" then { t with status := some "completed" } else t)
  { s with decomposed_tasks := tasks, completed_tasks := s.completed_tasks ++ tasks }

/-- The compiled workflow loop
(`launch_subtask -> wait_for_completion -> handle_callback -> check_next_task`),
with a fuel bound: each iteration either advances `current_task_index` or
sets `error`, so `decomposed_tasks.length + 1` iterations always reach
`finalize`. -/
def graph_loop (env : GraphEnv) : Nat → GraphState → GraphState
  | 0, s => s
  | fuel + 1, s =>
    let s := launch_subtask env s
    let s := wait_for_completion env s
    let s := handle_callback s
    match check_next_task s with
    | .launch_subtask => graph_loop env fuel s
    | .finalize => finalize s

/-- workflow.invoke on the initial state built by
`LLMOrchestrator._orchestrate_with_graph`, entering at `analyze_request`. -/
def workflow_invoke (env : GraphEnv) (user_request : String)
    (context : List (String × Json)) : GraphState :=
  let s := analyze_request user_request context
  graph_loop env (s.decomposed_tasks.length + 1) s

/-- The dict returned by `LLMOrchestrator._orchestrate_with_graph`. -/
structure OrchestrateResult where
  response : String
  steps : List GraphTask
  awx_jobs : List Int
  completed_tasks : List GraphTask
  error : Option String

/-- LLMOrchestrator._orchestrate_with_graph: run the workflow and package
the final state (note that a step failure is reported only inside the
returned `error`/`response` fields, not raised). -/
def orchestrate_with_graph (env : GraphEnv) (request : String)
    (context : List (String × Json)) : OrchestrateResult :=
  let final := workflow_invoke env request context
  let response_parts := ["Orchestrated request: " ++ request] ++
    (match final.error with
     | some e => ["Error: " ++ e]
     | none =>
       ["Completed " ++ toString final.completed_tasks.length ++ " task(s)"] ++
       final.completed_tasks.map (fun t =>
         "  - " ++ t.description ++ ": " ++ (t.status.getD "unknown")))
  { response := String.intercalate "\n" response_parts,
    steps := final.decomposed_tasks,
    awx_jobs := final.awx_job_ids,
    completed_tasks := final.completed_tasks,
    error := final.error }

/-- Replace the record stored under `key` (when present) by an
orchestration record, modelling a Python in-place mutation of the object
held both by the local variable and by the `_jobs` dict. -/
def set_orch (s : Store) (key : UUID) (j : OrchestrationJob) : Store :=
  { s with jobs := s.jobs.map (fun p =>
      if p.1 == key then (p.1, JobRecord.orch j) else p) }

/-- Replace the record stored under `key` (when present) by an AWX record,
modelling a Python in-place mutation. -/
def set_awx (s : Store) (key : UUID) (j : AWXJob) : Store :=
  { s with jobs := s.jobs.map (fun p =>
      if p.1 == key then (p.1, JobRecord.awx j) else p) }

/-- The minimal tracking `AWXJob` created for each launched AWX job id in
`process_orchestration_job` (main.py lines 340-347): defaults everywhere
except a placeholder request named "Orchestrated" and the AWX job id. -/
def minimal_tracking_awx (uuid : UUID) (now : Time) (awx_id : Int) : AWXJob :=
  { job_id := uuid, status := .received, requested_at := now,
    completed_at := none,
    request := { job_template_id := none,
                 job_template_name := some "Orchestrated",
                 extra_vars := [], inventory_id := none, limit := none,
                 metadata := [] },
    message := none, awx_job_id := some awx_id, awx_job_status := none,
    awx_job_output := none, awx_job_facts := none, awx_error := none,
    parent_job_id := none, child_job_ids := [], step_number := none,
    total_steps := none }

/-- Environment of `process_orchestration_job`: the graph collaborators and
the `uuid4()` values minted for tracking records. -/
structure OrchDriverEnv where
  graph : GraphEnv
  fresh_uuid : Nat → UUID

/-- The try-block of `process_orchestration_job` (main.py lines 308-362),
given the looked-up orchestration job.  The only raisable exception in the
block is the persistence failure inside a terminal `update_status`. -/
def orch_body (env : OrchDriverEnv) (retention : Int) (now : Time) (s : Store)
    (job_id : UUID) (job0 : OrchestrationJob) : Store × Except Unit Unit :=
  let r1 := JobManager.update_status retention now s job_id .validating
    (some "Analyzing request with LLM.") ResultUpdates.empty
  match r1 with
  | (s, .error _) => (s, .error ())
  | (s, .ok ro1) =>
    let job := match ro1 with | some (.orch j) => j | _ => job0
    let result := orchestrate_with_graph env.graph job.request.request
      job.request.context
    let job := { job with
      llm_response := some result.response,
      decomposed_tasks := result.steps.map GraphTask.toDict }
    let s := set_orch s job_id job
    match result.awx_jobs with
    | [] =>
      let r2 := JobManager.update_status retention now s job_id .completed
        (some "Orchestration completed (no AWX jobs launched).")
        ResultUpdates.empty
      match r2 with
      | (s, .error _) => (s, .error ())
      | (s, .ok ro2) =>
        let job := match ro2 with | some (.orch j) => j | _ => job
        if job.status ≠ .completed then
          let r3 := JobManager.update_status retention now s job_id .completed
            (some "Orchestration completed successfully.") ResultUpdates.empty
          (r3.1, match r3.2 with | .ok _ => .ok () | .error e => .error e)
        else (s, .ok ())
    | ids =>
      let r2 := JobManager.update_status retention now s job_id .monitoring
        (some ("Orchestration completed. Launched " ++ toString ids.length
          ++ " AWX job(s)."))
        ResultUpdates.empty
      match r2 with
      | (s, .error _) => (s, .error ())
      | (s, .ok ro2) =>
        let job := match ro2 with | some (.orch j) => j | _ => job
        let children := ids.enum.map (fun p =>
          minimal_tracking_awx (env.fresh_uuid p.1) now p.2)
        let job := { job with awx_jobs := job.awx_jobs ++ children }
        let s := set_orch s job_id job
        if job.status ≠ .completed then
          let r3 := JobManager.update_status retention now s job_id .completed
            (some "Orchestration completed successfully.") ResultUpdates.empty
          (r3.1, match r3.2 with | .ok _ => .ok () | .error e => .error e)
        else (s, .ok ())

/-- The except-handler of `process_orchestration_job` (main.py lines
364-371): record `llm_error` on the job object and attempt a FAILED
transition (whose own persistence failure would propagate out of the
background task). -/
def orch_handler (retention : Int) (now : Time) (s : Store) (job_id : UUID) :
    Store × Except Unit Unit :=
  let s := { s with jobs := s.jobs.map (fun p =>
    if p.1 == job_id then
      (p.1, match p.2 with
        | .orch j => JobRecord.orch { j with llm_error := some "PersistenceError" }
        | r => r)
    else p) }
  let r := JobManager.update_status retention now s job_id .failed
    (some "Orchestration failed: PersistenceError") ResultUpdates.empty
  (r.1, match r.2 with | .ok _ => .ok () | .error e => .error e)

/-- main.process_orchestration_job (main.py lines 301-371): hydrate the
job, run the orchestrator, and stamp the parent terminal state.  Note that
the returned `result["error"]` of the orchestrator is never consulted. -/
def process_orchestration_job (env : OrchDriverEnv) (retention : Int)
    (now : Time) (s : Store) (job_id : UUID) : Store × Except Unit Unit :=
  match JobManager.get_job retention now s job_id with
  | (s1, none) => (s1, .ok ())
  | (s1, some (.awx _)) => (s1, .ok ())
  | (s1, some (.orch job)) =>
    match orch_body env retention now s1 job_id job with
    | (s2, .ok _) => (s2, .ok ())
    | (s2, .error _) => orch_handler retention now s2 job_id

end AWX

namespace AWX

/-- Python `repr` of an `AWXJobStatus` member as interpolated into the
failure message `f"Job failed with status: ..."`. -/
def AWXJobStatus.pyRepr : AWXJobStatus → String
  | .new => "AWXJobStatus.NEW"
  | .pending => "AWXJobStatus.PENDING"
  | .waiting => "AWXJobStatus.WAITING"
  | .running => "AWXJobStatus.RUNNING"
  | .successful => "AWXJobStatus.SUCCESSFUL"
  | .failed => "AWXJobStatus.FAILED"
  | .error => "AWXJobStatus.ERROR"
  | .canceled => "AWXJobStatus.CANCELED"

/-- External collaborators of `process_awx_job`: template search by name,
template fetch by id, job launch, completion wait, and output fetch.  An
`.error` value is a raised exception with its message. -/
structure AWXDriverEnv where
  search : String → Option JobTemplateInfo
  get_template : Int → Except String (Option JobTemplateInfo)
  launch : Int → Except String (List (String × Json))
  wait : Int → Except String (List (String × Json))
  output : Int → Except String String

/-- Read the `status` value of a `job_data` dict with a default, as
`job_data.get("status", default)` (the AWX API returns it as a string). -/
def job_data_status (job_data : List (String × Json)) (dflt : String) :
    Except String String :=
  match Json.getField job_data "status" with
  | none => .ok dflt
  | some (.str x) => .ok x
  | some _ => .error "invalid status value"

/-- Tail of the try-block of `process_awx_job` from the point where the
final backend status `st1` of the monitored AWX job is known (main.py
lines 215-244): record the status and the best-effort output on the job
object, then stamp COMPLETED, or compose the failure message, record
`awx_error` and stamp FAILED. -/
def awx_finalize (env : AWXDriverEnv) (retention : Int) (now : Time)
    (s : Store) (job_id : UUID) (job : AWXJob) (awx_job_id : Int)
    (job_data : List (String × Json)) (st1 : AWXJobStatus) :
    Store × Except String Unit :=
  let job := { job with awx_job_status := some st1 }
  -- inner try: output fetch failure is absorbed
  let job := match env.output awx_job_id with
    | .ok o => { job with awx_job_output := some o }
    | .error _ => { job with awx_job_output := none }
  let s := set_awx s job_id job
  if st1 = .successful then
    let r4 := JobManager.update_status retention now s job_id .completed
      (some ("Job completed successfully. AWX job ID: "
        ++ toString awx_job_id))
      ResultUpdates.empty
    (r4.1, match r4.2 with
      | .ok _ => .ok ()
      | .error _ => .error "PersistenceError")
  else
    let error_msg := "Job failed with status: " ++ AWXJobStatus.pyRepr st1
    let error_msg := match Json.getField job_data "job_explanation" with
      | some (.str e) => if e ≠ "" then error_msg ++ " - " ++ e else error_msg
      | _ => error_msg
    let job := { job with awx_error := some error_msg }
    let s := set_awx s job_id job
    let r4 := JobManager.update_status retention now s job_id .failed
      (some error_msg) ResultUpdates.empty
    (r4.1, match r4.2 with
      | .ok _ => .ok ()
      | .error _ => .error "PersistenceError")

/-- Monitoring phase of `process_awx_job` (main.py lines 207-215): wait for
the backend job and validate its final status string. -/
def awx_stage_monitor (env : AWXDriverEnv) (retention : Int) (now : Time)
    (s : Store) (job_id : UUID) (job : AWXJob) (awx_job_id : Int) :
    Store × Except String Unit :=
  match env.wait awx_job_id with
  | .error e => (s, .error e)
  | .ok job_data =>
    match (job_data_status job_data "error").bind
        (fun x => match AWXJobStatus.ofStr x with
          | some st => .ok st
          | none => .error (x ++ " is not a valid AWXJobStatus")) with
    | .error e => (s, .error e)
    | .ok st1 => awx_finalize env retention now s job_id job awx_job_id
        job_data st1

/-- Post-launch phase of `process_awx_job` (main.py lines 197-205): record
the AWX job id and initial status on the job object and stamp MONITORING
(whose kwargs carry `awx_job_id` and the current `awx_job_status`). -/
def awx_stage_launched (env : AWXDriverEnv) (retention : Int) (now : Time)
    (s : Store) (job_id : UUID) (job : AWXJob) (awx_job_id : Int)
    (st0 : AWXJobStatus) : Store × Except String Unit :=
  let job := { job with awx_job_id := some awx_job_id,
                        awx_job_status := some st0 }
  let s := set_awx s job_id job
  let r3 := JobManager.update_status retention now s job_id .monitoring
    (some ("Job launched with AWX job ID " ++ toString awx_job_id ++ "."))
    ⟨some (some awx_job_id), some job.awx_job_status⟩
  match r3 with
  | (s, .error _) => (s, .error "PersistenceError")
  | (s, .ok ro3) =>
    let job := match ro3 with | some (.awx j) => j | _ => job
    awx_stage_monitor env retention now s job_id job awx_job_id

/-- Launch phase of `process_awx_job` (main.py lines 184-196): stamp
LAUNCHING, call `launch_job_template`, and read the returned job id
(`if not awx_job_id:` treats a missing or zero id as failure) and its
initial status (default "new"). -/
def awx_stage_launch (env : AWXDriverEnv) (retention : Int) (now : Time)
    (s : Store) (job_id : UUID) (job : AWXJob) (template_id : Int)
    (template : JobTemplateInfo) : Store × Except String Unit :=
  let r2 := JobManager.update_status retention now s job_id .launching
    (some ("Launching job template " ++ template.name ++ "."))
    ResultUpdates.empty
  match r2 with
  | (s, .error _) => (s, .error "PersistenceError")
  | (s, .ok ro2) =>
    let job := match ro2 with | some (.awx j) => j | _ => job
    match env.launch template_id with
    | .error e => (s, .error e)
    | .ok awx_job_data =>
      match Json.getField awx_job_data "id" with
      | some (.num awx_job_id) =>
        if awx_job_id = 0 then (s, .error "AWX did not return a job ID")
        else
          match (job_data_status awx_job_data "new").bind
              (fun x => match AWXJobStatus.ofStr x with
                | some st => .ok st
                | none => .error (x ++ " is not a valid AWXJobStatus")) with
          | .error e => (s, .error e)
          | .ok st0 =>
            awx_stage_launched env retention now s job_id job awx_job_id st0
      | _ => (s, .error "AWX did not return a job ID")

/-- Template verification of `process_awx_job` (main.py lines 179-182):
fetch the template by id, failing when it does not exist. -/
def awx_stage_resolved (env : AWXDriverEnv) (retention : Int) (now : Time)
    (s : Store) (job_id : UUID) (job : AWXJob) (template_id : Int) :
    Store × Except String Unit :=
  match env.get_template template_id with
  | .error e => (s, .error e)
  | .ok none =>
    (s, .error ("Job template ID " ++ toString template_id ++ " not found"))
  | .ok (some template) =>
    awx_stage_launch env retention now s job_id job template_id template

/-- The try-block of `process_awx_job` (main.py lines 165-244), given the
looked-up AWX job: stamp VALIDATING, resolve the template id (writing the
resolved id back into `job.request.job_template_id` when the request only
carried a name — main.py line 176), and hand over to the later stages.
Raised exceptions (ValueError, adapter errors, and the persistence failure
of a terminal `update_status`) surface as `.error` with the exception
text. -/
def awx_body (env : AWXDriverEnv) (retention : Int) (now : Time) (s : Store)
    (job_id : UUID) (job0 : AWXJob) : Store × Except String Unit :=
  let r1 := JobManager.update_status retention now s job_id .validating
    (some "Validating job template.") ResultUpdates.empty
  match r1 with
  | (s, .error _) => (s, .error "PersistenceError")
  | (s, .ok ro1) =>
    let job := match ro1 with | some (.awx j) => j | _ => job0
    -- template_id = job.request.job_template_id; `if not template_id:`
    let truthy_id : Option Int := match job.request.job_template_id with
      | some n => if n ≠ 0 then some n else none
      | none => none
    let resolved : Except String (Int × AWXJob) :=
      match truthy_id with
      | some n => .ok (n, job)
      | none =>
        match env.search (job.request.job_template_name.getD "") with
        | none => .error ("Job template "
            ++ job.request.job_template_name.getD "" ++ " not found")
        | some t =>
          -- job.request.job_template_id = template_id  (main.py line 176)
          .ok (t.id, { job with
            request := { job.request with job_template_id := some t.id } })
    match resolved with
    | .error e => (s, .error e)
    | .ok (template_id, job) =>
      let s := set_awx s job_id job
      awx_stage_resolved env retention now s job_id job template_id

/-- The except-handler mutation of `process_awx_job` (main.py line 248):
write the exception text into `awx_error` of the stored job object. -/
def set_awx_error (s : Store) (key : UUID) (e : String) : Store :=
  { s with jobs := s.jobs.map (fun p =>
      if p.1 == key then
        (p.1, match p.2 with
          | .awx j => JobRecord.awx { j with awx_error := some e }
          | r => r)
      else p) }

/-- main.process_awx_job (main.py lines 158-253): hydrate, run the
try-block, and on any exception record `awx_error` on the job object and
attempt a FAILED transition (whose own persistence failure propagates out
of the background task). -/
def process_awx_job (env : AWXDriverEnv) (retention : Int) (now : Time)
    (s : Store) (job_id : UUID) : Store × Except String Unit :=
  match JobManager.get_job retention now s job_id with
  | (s1, none) => (s1, .ok ())
  | (s1, some (.orch _)) => (s1, .ok ())
  | (s1, some (.awx job)) =>
    match awx_body env retention now s1 job_id job with
    | (s2, .ok _) => (s2, .ok ())
    | (s2, .error e) =>
      let s2 := set_awx_error s2 job_id e
      let r := JobManager.update_status retention now s2 job_id .failed
        (some ("Job processing failed: " ++ e)) ResultUpdates.empty
      (r.1, match r.2 with | .ok _ => .ok () | .error _ => .error "PersistenceError")

end AWX

/-- Looking up a key right after a dict-style insert finds the new value. -/
theorem alist_lookup_map_replace (l : List (UUID × β)) (k : UUID) (v : β) :
    alist_lookup (l.map (fun p => if p.1 == k then (k, v) else p)) k
      = if (l.find? (fun p => p.1 == k)).isSome then some v else none := by
  induction l with
  | nil => simp [alist_lookup]
  | cons x xs ih =>
    by_cases hx : x.1 == k
    · have hxk : x.1 = k := by simpa using hx
      simp [alist_lookup, List.find?_cons, hxk]
    · simp only [List.map_cons, if_neg hx, alist_lookup, List.find?_cons,
        hx] at ih ⊢
      simpa [hx] using ih

/-- Appending a fresh binding is found when the key was absent. -/
theorem alist_lookup_append_single (l : List (UUID × β)) (k : UUID) (v : β)
    (h : l.find? (fun p => p.1 == k) = none) :
    alist_lookup (l ++ [(k, v)]) k = some v := by
  induction l with
  | nil => simp [alist_lookup]
  | cons x xs ih =>
    by_cases hx : x.1 == k
    · simp [List.find?_cons, hx] at h
    · simp only [List.find?_cons, hx] at h
      simp only [List.cons_append, alist_lookup, List.find?_cons, hx]
      simpa [alist_lookup] using ih (by simpa using h)

/-- Lookup after insert at the same key. -/
theorem alist_lookup_insert (l : List (UUID × β)) (k : UUID) (v : β) :
    alist_lookup (alist_insert l k v) k = some v := by
  unfold alist_insert
  by_cases h : (l.find? (fun p => p.1 == k)).isSome
  · rw [if_pos h, alist_lookup_map_replace, if_pos h]
  · rw [if_neg h]
    exact alist_lookup_append_single l k v (by
      cases hf : l.find? (fun p => p.1 == k) with
      | none => rfl
      | some p => rw [hf] at h; simp at h)

/-- Lookup after erasing the same key. -/
theorem alist_lookup_erase (l : List (UUID × β)) (k : UUID) :
    alist_lookup (alist_erase l k) k = none := by
  induction l with
  | nil => simp [alist_lookup, alist_erase]
  | cons x xs ih =>
    by_cases hx : x.1 == k
    · have hxk : x.1 = k := by simpa using hx
      simpa [alist_erase, List.filter_cons, hxk] using ih
    · simp only [alist_erase, List.filter_cons, hx, bne_iff_ne] at ih ⊢
      simp only [ne_eq, beq_iff_eq] at hx
      simpa [alist_lookup, List.find?_cons, hx] using ih

/-- A key that is bound to a value surviving the filter is still found,
with the same value. -/
theorem alist_lookup_filter_keep (l : List (UUID × β)) (k : UUID) (v : β)
    (p : UUID × β → Bool) (hl : alist_lookup l k = some v)
    (hp : p (k, v) = true) :
    alist_lookup (l.filter p) k = some v := by
  induction l with
  | nil => simp [alist_lookup] at hl
  | cons x xs ih =>
    obtain ⟨a, b⟩ := x
    by_cases hx : a = k
    · subst hx
      have hv : b = v := by
        simpa [alist_lookup, List.find?_cons] using hl
      subst hv
      simp [List.filter_cons, hp, alist_lookup, List.find?_cons]
    · have hxb : (a == k) = false := by simpa using hx
      have hl2 : alist_lookup xs k = some v := by
        simpa [alist_lookup, List.find?_cons, hxb] using hl
      by_cases hpx : p (a, b) = true
      · simpa [List.filter_cons, hpx, alist_lookup, List.find?_cons, hxb]
          using ih hl2
      · simpa [List.filter_cons, hpx] using ih hl2

/-- A key absent from the binding list is not found. -/
theorem alist_lookup_eq_none (l : List (UUID × β)) (k : UUID)
    (h : k ∉ l.map Prod.fst) : alist_lookup l k = none := by
  induction l with
  | nil => rfl
  | cons x xs ih =>
    simp only [List.map_cons, List.mem_cons, not_or] at h
    have hx : (x.1 == k) = false := by
      rw [beq_eq_false_iff_ne]
      exact fun he => h.1 he.symm
    simpa [alist_lookup, List.find?_cons, hx] using ih h.2

/-- With duplicate-free keys, a binding removed by the filter makes the key
unfindable. -/
theorem alist_lookup_filter_drop (l : List (UUID × β)) (k : UUID) (v : β)
    (p : UUID × β → Bool) (hnd : (l.map Prod.fst).Nodup)
    (hl : alist_lookup l k = some v) (hp : p (k, v) = false) :
    alist_lookup (l.filter p) k = none := by
  induction l with
  | nil => simp [alist_lookup] at hl
  | cons x xs ih =>
    simp only [List.map_cons, List.nodup_cons] at hnd
    obtain ⟨a, b⟩ := x
    by_cases hx : a = k
    · subst hx
      have hv : b = v := by
        simpa [alist_lookup, List.find?_cons] using hl
      subst hv
      have habs : alist_lookup (xs.filter p) a = none := by
        apply alist_lookup_eq_none
        intro hmem
        exact hnd.1 (by
          rcases List.mem_map.mp hmem with ⟨q, hq, hqk⟩
          exact List.mem_map.mpr ⟨q, List.mem_of_mem_filter hq, hqk⟩)
      simpa [List.filter_cons, hp] using habs
    · have hxb : (a == k) = false := by simpa using hx
      have hl2 : alist_lookup xs k = some v := by
        simpa [alist_lookup, List.find?_cons, hxb] using hl
      by_cases hpx : p (a, b) = true
      · simpa [List.filter_cons, hpx, alist_lookup, List.find?_cons, hxb]
          using ih hnd.2 hl2
      · simpa [List.filter_cons, hpx] using ih hnd.2 hl2

/-- Lookup through a key-preserving pointwise modification at the modified
key. -/
theorem alist_lookup_mapmod (l : List (UUID × β)) (k : UUID) (g : β → β) :
    alist_lookup (l.map (fun p => if p.1 == k then (p.1, g p.2) else p)) k
      = (alist_lookup l k).map g := by
  induction l with
  | nil => simp [alist_lookup]
  | cons x xs ih =>
    by_cases hx : x.1 == k
    · have hxk : x.1 = k := by simpa using hx
      simp [alist_lookup, List.find?_cons, hxk]
    · simp only [List.map_cons, if_neg hx]
      simpa [alist_lookup, List.find?_cons, hx] using ih

namespace AWX

/-- Creation-time data of a record: its `requested_at` timestamp and its
`request` payload (tagged by record kind). -/
def JobRecord.request_data : JobRecord →
    Time × (JobTemplateRequest ⊕ OrchestrationRequest)
  | .awx j => (j.requested_at, .inl j.request)
  | .orch j => (j.requested_at, .inr j.request)

theorem set_status_status (j : JobRecord) (st : AWXAgentJobStatus) :
    (j.set_status st).status = st := by
  cases j <;> rfl

theorem set_status_completed_at (j : JobRecord) (st : AWXAgentJobStatus) :
    (j.set_status st).completed_at = j.completed_at := by
  cases j <;> rfl

theorem set_status_request_data (j : JobRecord) (st : AWXAgentJobStatus) :
    (j.set_status st).request_data = j.request_data := by
  cases j <;> rfl

theorem set_status_isAwx (j : JobRecord) (st : AWXAgentJobStatus) :
    (j.set_status st).isAwx = j.isAwx := by
  cases j <;> rfl

theorem set_message_status (j : JobRecord) (m : String) :
    (j.set_message m).status = j.status := by
  cases j <;> rfl

theorem set_message_completed_at (j : JobRecord) (m : String) :
    (j.set_message m).completed_at = j.completed_at := by
  cases j <;> rfl

theorem set_message_request_data (j : JobRecord) (m : String) :
    (j.set_message m).request_data = j.request_data := by
  cases j <;> rfl

theorem set_message_isAwx (j : JobRecord) (m : String) :
    (j.set_message m).isAwx = j.isAwx := by
  cases j <;> rfl

theorem set_completed_at_status (j : JobRecord) (t : Option Time) :
    (j.set_completed_at t).status = j.status := by
  cases j <;> rfl

theorem set_completed_at_completed_at (j : JobRecord) (t : Option Time) :
    (j.set_completed_at t).completed_at = t := by
  cases j <;> rfl

theorem set_completed_at_request_data (j : JobRecord) (t : Option Time) :
    (j.set_completed_at t).request_data = j.request_data := by
  cases j <;> rfl

theorem set_completed_at_isAwx (j : JobRecord) (t : Option Time) :
    (j.set_completed_at t).isAwx = j.isAwx := by
  cases j <;> rfl

theorem awx_apply_updates_frame (j : AWXJob) (kw : ResultUpdates) :
    (j.apply_updates kw).status = j.status
    ∧ (j.apply_updates kw).completed_at = j.completed_at
    ∧ (j.apply_updates kw).requested_at = j.requested_at
    ∧ (j.apply_updates kw).request = j.request := by
  obtain ⟨a, b⟩ := kw
  cases a <;> cases b <;> exact ⟨rfl, rfl, rfl, rfl⟩

theorem apply_updates_status (j : JobRecord) (kw : ResultUpdates) :
    (j.apply_updates kw).status = j.status := by
  cases j with
  | awx j => exact (awx_apply_updates_frame j kw).1
  | orch j => rfl

theorem apply_updates_completed_at (j : JobRecord) (kw : ResultUpdates) :
    (j.apply_updates kw).completed_at = j.completed_at := by
  cases j with
  | awx j => exact (awx_apply_updates_frame j kw).2.1
  | orch j => rfl

theorem apply_updates_request_data (j : JobRecord) (kw : ResultUpdates) :
    (j.apply_updates kw).request_data = j.request_data := by
  cases j with
  | awx j =>
    have h := awx_apply_updates_frame j kw
    simp [JobRecord.apply_updates, JobRecord.request_data, h.2.2.1, h.2.2.2]
  | orch j => rfl

theorem apply_updates_isAwx (j : JobRecord) (kw : ResultUpdates) :
    (j.apply_updates kw).isAwx = j.isAwx := by
  cases j <;> rfl

end AWX

namespace AWX

theorem transition_record_status (j : JobRecord) (st : AWXAgentJobStatus)
    (msg : Option String) (kw : ResultUpdates) :
    (j.transition_record st msg kw).status = st := by
  unfold JobRecord.transition_record
  cases msg with
  | none => rw [apply_updates_status, set_status_status]
  | some m =>
    by_cases hm : m = "" <;>
      simp [hm, apply_updates_status, set_status_status, set_message_status]

theorem transition_record_completed_at (j : JobRecord)
    (st : AWXAgentJobStatus) (msg : Option String) (kw : ResultUpdates) :
    (j.transition_record st msg kw).completed_at = j.completed_at := by
  unfold JobRecord.transition_record
  cases msg with
  | none => rw [apply_updates_completed_at, set_status_completed_at]
  | some m =>
    by_cases hm : m = "" <;>
      simp [hm, apply_updates_completed_at, set_status_completed_at,
        set_message_completed_at]

theorem transition_record_request_data (j : JobRecord)
    (st : AWXAgentJobStatus) (msg : Option String) (kw : ResultUpdates) :
    (j.transition_record st msg kw).request_data = j.request_data := by
  unfold JobRecord.transition_record
  cases msg with
  | none => rw [apply_updates_request_data, set_status_request_data]
  | some m =>
    by_cases hm : m = "" <;>
      simp [hm, apply_updates_request_data, set_status_request_data,
        set_message_request_data]

theorem transition_record_isAwx (j : JobRecord) (st : AWXAgentJobStatus)
    (msg : Option String) (kw : ResultUpdates) :
    (j.transition_record st msg kw).isAwx = j.isAwx := by
  unfold JobRecord.transition_record
  cases msg with
  | none => rw [apply_updates_isAwx, set_status_isAwx]
  | some m =>
    by_cases hm : m = "" <;>
      simp [hm, apply_updates_isAwx, set_status_isAwx, set_message_isAwx]

theorem transitioned_status (j : JobRecord) (st : AWXAgentJobStatus)
    (msg : Option String) (kw : ResultUpdates) (now : Time) :
    (j.transitioned st msg kw now).status = st := by
  unfold JobRecord.transitioned
  split
  · rw [set_completed_at_status, transition_record_status]
  · rw [transition_record_status]

theorem transitioned_completed_at_terminal (j : JobRecord)
    (st : AWXAgentJobStatus) (msg : Option String) (kw : ResultUpdates)
    (now : Time) (h : st.isTerminal = true) :
    (j.transitioned st msg kw now).completed_at = some now := by
  unfold JobRecord.transitioned
  rw [if_pos h, set_completed_at_completed_at]

theorem transitioned_completed_at_nonterminal (j : JobRecord)
    (st : AWXAgentJobStatus) (msg : Option String) (kw : ResultUpdates)
    (now : Time) (h : st.isTerminal = false) :
    (j.transitioned st msg kw now).completed_at = j.completed_at := by
  unfold JobRecord.transitioned
  rw [h]
  simp [transition_record_completed_at]

theorem transitioned_request_data (j : JobRecord) (st : AWXAgentJobStatus)
    (msg : Option String) (kw : ResultUpdates) (now : Time) :
    (j.transitioned st msg kw now).request_data = j.request_data := by
  unfold JobRecord.transitioned
  split
  · rw [set_completed_at_request_data, transition_record_request_data]
  · rw [transition_record_request_data]

theorem transitioned_isAwx (j : JobRecord) (st : AWXAgentJobStatus)
    (msg : Option String) (kw : ResultUpdates) (now : Time) :
    (j.transitioned st msg kw now).isAwx = j.isAwx := by
  unfold JobRecord.transitioned
  split
  · rw [set_completed_at_isAwx, transition_record_isAwx]
  · rw [transition_record_isAwx]

/-- An AWX-kind record transitions to an AWX-kind record whose creation
data (`requested_at` and the whole `request`) is unchanged. -/
theorem transitioned_awx (j : AWXJob) (st : AWXAgentJobStatus)
    (msg : Option String) (kw : ResultUpdates) (now : Time) :
    ∃ j2 : AWXJob, (JobRecord.awx j).transitioned st msg kw now = .awx j2
      ∧ j2.requested_at = j.requested_at ∧ j2.request = j.request := by
  have hk := transitioned_isAwx (.awx j) st msg kw now
  have hrd := transitioned_request_data (.awx j) st msg kw now
  cases hj : (JobRecord.awx j).transitioned st msg kw now with
  | awx j2 =>
    refine ⟨j2, rfl, ?_, ?_⟩
    · rw [hj] at hrd
      exact congrArg Prod.fst hrd
    · rw [hj] at hrd
      have := congrArg Prod.snd hrd
      simpa [JobRecord.request_data] using this
  | orch j2 =>
    rw [hj] at hk
    simp [JobRecord.isAwx] at hk

namespace JobManager

/-- A purge pass that ran within the last 60 seconds suppresses
`_maybe_purge` entirely. -/
theorem maybe_purge_recent (retention : Int) (now : Time) (s : Store)
    (lp : Time) (h1 : s.last_purge = some lp) (h2 : now - lp < 60) :
    maybe_purge retention now s = s := by
  unfold maybe_purge
  rw [h1]
  simp [PURGE_INTERVAL_SECONDS, h2]

/-- Literal form of `maybe_purge_recent`, convenient for rewriting. -/
theorem maybe_purge_recent_lit (retention : Int) (now : Time)
    (jobs : List (UUID × JobRecord)) (disk : List (UUID × Json))
    (dok : Bool) (lp : Time) (h2 : now - lp < 60) :
    maybe_purge retention now ⟨jobs, disk, dok, some lp⟩
      = ⟨jobs, disk, dok, some lp⟩ := by
  unfold maybe_purge
  simp [PURGE_INTERVAL_SECONDS, h2]

/-- A lookup that hits the in-memory map returns immediately, with the
store untouched. -/
theorem get_job_mem (retention : Int) (now : Time) (s : Store) (id : UUID)
    (j : JobRecord) (hj : alist_lookup s.jobs id = some j) :
    get_job retention now s id = (s, some j) := by
  unfold get_job
  rw [hj]

/-- The value returned by `update_status` on an in-memory job: either the
persistence exception, or the fully transitioned record. -/
theorem update_status_ret (retention : Int) (now : Time) (s : Store)
    (id : UUID) (st : AWXAgentJobStatus) (msg : Option String)
    (kw : ResultUpdates) (j : JobRecord)
    (hj : alist_lookup s.jobs id = some j) :
    (update_status retention now s id st msg kw).2 = .error ()
    ∨ (update_status retention now s id st msg kw).2
        = .ok (some (j.transitioned st msg kw now)) := by
  unfold update_status
  rw [hj]
  by_cases ht : st.isTerminal = true
  · rw [JobRecord.transitioned, if_pos ht]
    simp only [ht, if_true]
    by_cases hd : s.disk_ok = true
    · right; simp [hd]
    · left; simp [eq_false_of_ne_true hd]
  · rw [JobRecord.transitioned, if_neg ht]
    right
    simp [eq_false_of_ne_true ht]

/-- The store produced by `update_status` on an in-memory job while no
purge pass is due: the record is replaced in memory by its transitioned
value, the purge clock and write flag are untouched, and the disk gains
exactly the terminal flush (or nothing at all when the new status is
non-terminal or the write fails). -/
theorem update_status_frame (retention : Int) (now : Time) (s : Store)
    (id : UUID) (st : AWXAgentJobStatus) (msg : Option String)
    (kw : ResultUpdates) (j : JobRecord) (lp : Time)
    (hj : alist_lookup s.jobs id = some j) (hlp : s.last_purge = some lp)
    (hrec : now - lp < 60) :
    alist_lookup (update_status retention now s id st msg kw).1.jobs id
        = some (j.transitioned st msg kw now)
    ∧ (update_status retention now s id st msg kw).1.last_purge = some lp
    ∧ (update_status retention now s id st msg kw).1.disk_ok = s.disk_ok
    ∧ (st.isTerminal = true → s.disk_ok = true →
        (update_status retention now s id st msg kw).1.disk
          = alist_insert s.disk (j.transitioned st msg kw now).job_id
              (j.transitioned st msg kw now).toJson)
    ∧ (st.isTerminal = false →
        (update_status retention now s id st msg kw).1.disk = s.disk)
    ∧ (st.isTerminal = true → s.disk_ok = false →
        (update_status retention now s id st msg kw).1.disk = s.disk
        ∧ (update_status retention now s id st msg kw).2 = .error ()) := by
  unfold update_status
  rw [hj]
  by_cases ht : st.isTerminal = true
  · rw [JobRecord.transitioned, if_pos ht]
    by_cases hd : s.disk_ok = true
    · simp only [ht, hd, if_true, hlp]
      rw [maybe_purge_recent_lit retention now _ _ _ lp hrec]
      simp [alist_lookup_insert, hd]
    · have hdf : s.disk_ok = false := eq_false_of_ne_true hd
      simp only [ht, hdf, if_true, Bool.false_eq_true, if_false]
      simp [alist_lookup_insert, hlp, hdf]
  · have htf : st.isTerminal = false := eq_false_of_ne_true ht
    rw [JobRecord.transitioned, if_neg ht]
    simp only [htf, Bool.false_eq_true, if_false, hlp]
    rw [maybe_purge_recent_lit retention now _ _ _ lp hrec]
    simp [alist_lookup_insert, htf, hlp]

end JobManager

theorem set_awx_lookup (s : Store) (k : UUID) (j : AWXJob) :
    alist_lookup (set_awx s k j).jobs k
      = (alist_lookup s.jobs k).map (fun _ => JobRecord.awx j) := by
  unfold set_awx
  exact alist_lookup_mapmod s.jobs k (fun _ => JobRecord.awx j)

theorem set_awx_frame (s : Store) (k : UUID) (j : AWXJob) :
    (set_awx s k j).last_purge = s.last_purge
    ∧ (set_awx s k j).disk_ok = s.disk_ok
    ∧ (set_awx s k j).disk = s.disk :=
  ⟨rfl, rfl, rfl⟩

/-- The handler mutation records the exception text on the stored AWX
record. -/
theorem set_awx_error_lookup (s : Store) (key : UUID) (e : String)
    (jb : AWXJob) (h : alist_lookup s.jobs key = some (.awx jb)) :
    alist_lookup (set_awx_error s key e).jobs key
      = some (.awx { jb with awx_error := some e }) := by
  obtain ⟨jobs, disk, dok, lpg⟩ := s
  unfold set_awx_error
  dsimp only at h ⊢
  revert h
  induction jobs with
  | nil => intro h; simp [alist_lookup] at h
  | cons x xs ih =>
    intro h
    obtain ⟨a, r⟩ := x
    by_cases hx : a == key
    · have hxe : a = key := by simpa using hx
      subst hxe
      have hv : r = .awx jb := by
        simpa [alist_lookup, List.find?_cons] using h
      subst hv
      simp [alist_lookup, List.find?_cons]
    · have hxb : (a == key) = false := by simpa using hx
      have h2 : alist_lookup xs key = some (.awx jb) := by
        simpa [alist_lookup, List.find?_cons, hxb] using h
      simp only [List.map_cons]
      rw [if_neg hx]
      unfold alist_lookup
      rw [List.find?_cons]
      simp only [hxb]
      exact ih h2

end AWX

namespace DNS

theorem record_transition_frame (j : RecordJob) (st : RecordJobStatus)
    (msg : Option String) (kw : DocUpdates) :
    (j.transition_record st msg kw).status = st
    ∧ (j.transition_record st msg kw).completed_at = j.completed_at
    ∧ (j.transition_record st msg kw).requested_at = j.requested_at
    ∧ (j.transition_record st msg kw).request = j.request := by
  obtain ⟨d⟩ := kw
  unfold RecordJob.transition_record RecordJob.apply_updates
  cases msg with
  | none => cases d <;> exact ⟨rfl, rfl, rfl, rfl⟩
  | some m =>
    by_cases hm : m = "" <;> cases d <;> simp [hm]

theorem record_transitioned_status (j : RecordJob) (st : RecordJobStatus)
    (msg : Option String) (kw : DocUpdates) (now : Time) :
    (j.transitioned st msg kw now).status = st := by
  unfold RecordJob.transitioned
  split
  · simp [(record_transition_frame j st msg kw).1]
  · exact (record_transition_frame j st msg kw).1

theorem record_transitioned_completed_at_terminal (j : RecordJob)
    (st : RecordJobStatus) (msg : Option String) (kw : DocUpdates)
    (now : Time) (h : st.isTerminal = true) :
    (j.transitioned st msg kw now).completed_at = some now := by
  unfold RecordJob.transitioned
  rw [if_pos h]

theorem record_transitioned_completed_at_nonterminal (j : RecordJob)
    (st : RecordJobStatus) (msg : Option String) (kw : DocUpdates)
    (now : Time) (h : st.isTerminal = false) :
    (j.transitioned st msg kw now).completed_at = j.completed_at := by
  unfold RecordJob.transitioned
  rw [h]
  simp [(record_transition_frame j st msg kw).2.1]

theorem record_transitioned_request (j : RecordJob) (st : RecordJobStatus)
    (msg : Option String) (kw : DocUpdates) (now : Time) :
    (j.transitioned st msg kw now).requested_at = j.requested_at
    ∧ (j.transitioned st msg kw now).request = j.request := by
  unfold RecordJob.transitioned
  split
  · simp [(record_transition_frame j st msg kw).2.2.1,
      (record_transition_frame j st msg kw).2.2.2]
  · exact ⟨(record_transition_frame j st msg kw).2.2.1,
      (record_transition_frame j st msg kw).2.2.2⟩

namespace JobManager

/-- A purge pass that ran within the last 60 seconds suppresses the DNS
`_maybe_purge` entirely. -/
theorem dns_maybe_purge_recent (retention : Int) (now : Time) (s : Store)
    (lp : Time) (h1 : s.last_purge = some lp) (h2 : now - lp < 60) :
    maybe_purge retention now s = s := by
  unfold maybe_purge
  rw [h1]
  simp [PURGE_INTERVAL_SECONDS, h2]

/-- Literal form of the previous lemma, convenient for rewriting. -/
theorem dns_maybe_purge_recent_lit (retention : Int) (now : Time)
    (jobs : List (UUID × RecordJob)) (disk : List (UUID × Json))
    (dok : Bool) (lp : Time) (h2 : now - lp < 60) :
    maybe_purge retention now ⟨jobs, disk, dok, some lp⟩
      = ⟨jobs, disk, dok, some lp⟩ := by
  unfold maybe_purge
  simp [PURGE_INTERVAL_SECONDS, h2]

/-- A lookup that hits the in-memory map returns immediately. -/
theorem dns_get_job_mem (retention : Int) (now : Time) (s : Store) (id : UUID)
    (j : RecordJob) (hj : alist_lookup s.jobs id = some j) :
    get_job retention now s id = (s, some j) := by
  unfold get_job
  rw [hj]

/-- The value returned by the DNS `update_status` on an in-memory job. -/
theorem dns_update_status_ret (retention : Int) (now : Time) (s : Store)
    (id : UUID) (st : RecordJobStatus) (msg : Option String)
    (kw : DocUpdates) (j : RecordJob)
    (hj : alist_lookup s.jobs id = some j) :
    (update_status retention now s id st msg kw).2 = .error ()
    ∨ (update_status retention now s id st msg kw).2
        = .ok (some (j.transitioned st msg kw now)) := by
  unfold update_status
  rw [hj]
  by_cases ht : st.isTerminal = true
  · rw [RecordJob.transitioned, if_pos ht]
    simp only [ht, if_true]
    by_cases hd : s.disk_ok = true
    · right; simp [hd]
    · left; simp [eq_false_of_ne_true hd]
  · rw [RecordJob.transitioned, if_neg ht]
    right
    simp [eq_false_of_ne_true ht]

/-- The store produced by the DNS `update_status` on an in-memory job while
no purge pass is due. -/
theorem dns_update_status_frame (retention : Int) (now : Time) (s : Store)
    (id : UUID) (st : RecordJobStatus) (msg : Option String)
    (kw : DocUpdates) (j : RecordJob) (lp : Time)
    (hj : alist_lookup s.jobs id = some j) (hlp : s.last_purge = some lp)
    (hrec : now - lp < 60) :
    alist_lookup (update_status retention now s id st msg kw).1.jobs id
        = some (j.transitioned st msg kw now)
    ∧ (update_status retention now s id st msg kw).1.last_purge = some lp
    ∧ (update_status retention now s id st msg kw).1.disk_ok = s.disk_ok
    ∧ (st.isTerminal = true → s.disk_ok = true →
        (update_status retention now s id st msg kw).1.disk
          = alist_insert s.disk (j.transitioned st msg kw now).job_id
              (j.transitioned st msg kw now).toJson)
    ∧ (st.isTerminal = false →
        (update_status retention now s id st msg kw).1.disk = s.disk)
    ∧ (st.isTerminal = true → s.disk_ok = false →
        (update_status retention now s id st msg kw).1.disk = s.disk
        ∧ (update_status retention now s id st msg kw).2 = .error ()) := by
  unfold update_status
  rw [hj]
  by_cases ht : st.isTerminal = true
  · rw [RecordJob.transitioned, if_pos ht]
    by_cases hd : s.disk_ok = true
    · simp only [ht, hd, if_true, hlp]
      rw [dns_maybe_purge_recent_lit retention now _ _ _ lp hrec]
      simp [alist_lookup_insert, hd]
    · have hdf : s.disk_ok = false := eq_false_of_ne_true hd
      simp only [ht, hdf, if_true, Bool.false_eq_true, if_false]
      simp [alist_lookup_insert, hlp, hdf]
  · have htf : st.isTerminal = false := eq_false_of_ne_true ht
    rw [RecordJob.transitioned, if_neg ht]
    simp only [htf, Bool.false_eq_true, if_false, hlp]
    rw [dns_maybe_purge_recent_lit retention now _ _ _ lp hrec]
    simp [alist_lookup_insert, htf, hlp]

end JobManager

end DNS

namespace AWX

/-- A concrete template request used by the test fixtures. -/
def jt_req0 : JobTemplateRequest := ⟨some 3, some "hello", [], none, none, []⟩

/-- A job already in the terminal state COMPLETED with `completed_at` 900. -/
def awx_done : AWXJob :=
  ⟨4, .completed, 100, some 900, jt_req0, some "ok", some 55, some .successful,
   none, none, none, none, [], none, none⟩

/-- A store holding `awx_done` in memory, with a recent purge stamp. -/
def store_c1 : Store := ⟨[(4, .awx awx_done)], [], true, some 1000⟩

end AWX

namespace DNS

/-- A concrete DNS record request used by the test fixtures. -/
def dns_req0 : RecordRequest :=
  ⟨"bakerstreetlabs.io", "border.bakerstreetlabs.io", .A, "192.168.0.7", 60, []⟩

/-- A DNS job already in the terminal state COMPLETED. -/
def dns_done : RecordJob := ⟨4, .completed, 100, some 900, dns_req0, some "ok", none, none⟩

/-- A DNS store holding `dns_done` in memory, with a recent purge stamp. -/
def dns_store_c1 : Store := ⟨[(4, dns_done)], [], true, some 1000⟩

end DNS

/-- C1, counterexample: terminal states are not sticky.  The job `awx_done`
is already COMPLETED with `completed_at = 900`; a further `update_status`
to the terminal state FAILED at time 1000 leaves the job FAILED (not
COMPLETED) with `completed_at` re-stamped to 1000 — the claimed no-op
behaviour does not hold. -/
theorem terminal_transition_not_sticky_counterexample :
    (alist_lookup (AWX.JobManager.update_status 30 1000 AWX.store_c1 4
        .failed none AWX.ResultUpdates.empty).1.jobs 4).map
        AWX.JobRecord.status = some .failed
    ∧ (alist_lookup (AWX.JobManager.update_status 30 1000 AWX.store_c1 4
        .failed none AWX.ResultUpdates.empty).1.jobs 4).map
        AWX.JobRecord.completed_at = some (some 1000)
    ∧ AWX.AWXAgentJobStatus.failed ≠ AWX.AWXAgentJobStatus.completed
    ∧ (some (1000 : Time)) ≠ (some (900 : Time)) :=
  ⟨rfl, rfl, by decide, by decide⟩

/-- C1, amended: `update_status` applies a requested terminal transition
unconditionally.  For every job already in a terminal state, a further
call with any terminal state T2 leaves the job in T2 (not its previous
state) and re-stamps `completed_at` with the time of the later call, in
both the AWX and the DNS job manager. -/
theorem terminal_transition_overwrites :
    (∀ (retention : Int) (now : Time) (s : AWX.Store) (id : UUID)
       (j : AWX.JobRecord) (st2 : AWX.AWXAgentJobStatus)
       (msg : Option String) (kw : AWX.ResultUpdates) (lp : Time),
       alist_lookup s.jobs id = some j →
       j.status.isTerminal = true →
       st2.isTerminal = true →
       s.last_purge = some lp →
       now - lp < 60 →
       ∃ j2, alist_lookup
           (AWX.JobManager.update_status retention now s id st2 msg kw).1.jobs
           id = some j2
         ∧ j2.status = st2
         ∧ j2.completed_at = some now)
    ∧ (∀ (retention : Int) (now : Time) (s : DNS.Store) (id : UUID)
       (j : DNS.RecordJob) (st2 : DNS.RecordJobStatus)
       (msg : Option String) (kw : DNS.DocUpdates) (lp : Time),
       alist_lookup s.jobs id = some j →
       j.status.isTerminal = true →
       st2.isTerminal = true →
       s.last_purge = some lp →
       now - lp < 60 →
       ∃ j2, alist_lookup
           (DNS.JobManager.update_status retention now s id st2 msg kw).1.jobs
           id = some j2
         ∧ j2.status = st2
         ∧ j2.completed_at = some now) := by
  constructor
  · intro retention now s id j st2 msg kw lp hj _ ht2 hlp hrec
    obtain ⟨hmem, -⟩ :=
      AWX.JobManager.update_status_frame retention now s id st2 msg kw j lp
        hj hlp hrec
    exact ⟨j.transitioned st2 msg kw now, hmem,
      AWX.transitioned_status j st2 msg kw now,
      AWX.transitioned_completed_at_terminal j st2 msg kw now ht2⟩
  · intro retention now s id j st2 msg kw lp hj _ ht2 hlp hrec
    obtain ⟨hmem, -⟩ :=
      DNS.JobManager.dns_update_status_frame retention now s id st2 msg kw j lp
        hj hlp hrec
    exact ⟨j.transitioned st2 msg kw now, hmem,
      DNS.record_transitioned_status j st2 msg kw now,
      DNS.record_transitioned_completed_at_terminal j st2 msg kw now ht2⟩

/-- C1, witness: the amended theorem applied to the concrete stores
`store_c1` and `dns_store_c1`. -/
theorem terminal_transition_overwrites_witness :
    (∃ j2, alist_lookup (AWX.JobManager.update_status 30 1000 AWX.store_c1 4
        .failed none AWX.ResultUpdates.empty).1.jobs 4 = some j2
      ∧ j2.status = .failed ∧ j2.completed_at = some 1000)
    ∧ (∃ j2, alist_lookup (DNS.JobManager.update_status 30 1000
        DNS.dns_store_c1 4 .failed none DNS.DocUpdates.empty).1.jobs 4
        = some j2
      ∧ j2.status = .failed ∧ j2.completed_at = some 1000) :=
  ⟨terminal_transition_overwrites.1 30 1000 AWX.store_c1 4
      (.awx AWX.awx_done) .failed none AWX.ResultUpdates.empty 1000
      rfl rfl rfl rfl (by decide),
   terminal_transition_overwrites.2 30 1000 DNS.dns_store_c1 4
      DNS.dns_done .failed none DNS.DocUpdates.empty 1000
      rfl rfl rfl rfl (by decide)⟩

namespace AWX

/-- A store with an empty memory map whose disk cache holds a valid record
for the job `awx_done` under its id 4. -/
def store_mem_miss : Store :=
  ⟨[], [(4, (JobRecord.awx awx_done).toJson)], true, some 1000⟩

/-- A store with an empty memory map and an empty disk cache. -/
def store_empty : Store := ⟨[], [], true, some 1000⟩

/-- A store whose only disk file does not deserialize as either record
kind. -/
def store_corrupt : Store := ⟨[], [(9, Json.str "garbage")], true, some 1000⟩

end AWX

namespace DNS

/-- A DNS store with an empty memory map and an empty disk cache. -/
def dns_store_empty : Store := ⟨[], [], true, some 1000⟩

/-- A DNS store whose only disk file does not deserialize as a RecordJob. -/
def dns_store_corrupt : Store := ⟨[], [(9, Json.str "garbage")], true, some 1000⟩

end DNS

/-- C10: `update_status` consults only the in-memory map.  When the id is
absent from memory the call returns NotFound (`none`) with the whole store
— memory, disk and purge clock — unchanged, even in a store whose disk
cache holds a perfectly valid record for that id, where `get_job` would
hydrate and succeed.  Both managers behave identically. -/
theorem update_status_memory_only :
    (∀ (retention : Int) (now : Time) (s : AWX.Store) (id : UUID)
       (st : AWX.AWXAgentJobStatus) (msg : Option String)
       (kw : AWX.ResultUpdates),
       alist_lookup s.jobs id = none →
       AWX.JobManager.update_status retention now s id st msg kw
         = (s, .ok none))
    ∧ (∀ (retention : Int) (now : Time) (s : AWX.Store) (id : UUID)
       (data : Json) (j : AWX.JobRecord),
       alist_lookup s.jobs id = none →
       alist_lookup s.disk id = some data →
       AWX.JobRecord.tryParse data = some j →
       (AWX.JobManager.get_job retention now s id).2 = some j)
    ∧ (∀ (retention : Int) (now : Time) (s : DNS.Store) (id : UUID)
       (st : DNS.RecordJobStatus) (msg : Option String)
       (kw : DNS.DocUpdates),
       alist_lookup s.jobs id = none →
       DNS.JobManager.update_status retention now s id st msg kw
         = (s, .ok none)) := by
  refine ⟨?_, ?_, ?_⟩
  · intro retention now s id st msg kw h
    unfold AWX.JobManager.update_status
    rw [h]
  · intro retention now s id data j hmem hdisk hparse
    unfold AWX.JobManager.get_job
    rw [hmem, hdisk]
    simp only [hparse]
  · intro retention now s id st msg kw h
    unfold DNS.JobManager.update_status
    rw [h]

/-- C10, witness: the theorem applied to `store_mem_miss`, whose disk
cache holds a valid record for id 4 that `get_job` does hydrate, while
`update_status` still reports NotFound and changes nothing. -/
theorem update_status_memory_only_witness :
    (AWX.JobManager.update_status 30 1000 AWX.store_mem_miss 4 .monitoring
        none AWX.ResultUpdates.empty = (AWX.store_mem_miss, .ok none))
    ∧ ((AWX.JobManager.get_job 30 1000 AWX.store_mem_miss 4).2
        = some (.awx AWX.awx_done))
    ∧ (DNS.JobManager.update_status 30 1000 DNS.dns_store_empty 4
        .applying none DNS.DocUpdates.empty = (DNS.dns_store_empty, .ok none)) :=
  ⟨update_status_memory_only.1 30 1000 AWX.store_mem_miss 4 .monitoring
      none AWX.ResultUpdates.empty rfl,
   update_status_memory_only.2.1 30 1000 AWX.store_mem_miss 4
      ((AWX.JobRecord.awx AWX.awx_done).toJson) (.awx AWX.awx_done)
      rfl rfl rfl,
   update_status_memory_only.2.2 30 1000 DNS.dns_store_empty 4 .applying
      none DNS.DocUpdates.empty rfl⟩

/-- C7: lookup error handling.  A `get_job` on an id with neither an
in-memory entry nor a cache file returns NotFound with the store entirely
unchanged (in particular no disk entry is created); a `get_job` on an id
whose cache file fails to deserialize as any known record kind deletes
exactly that file and returns NotFound instead of an error.  Both managers
behave identically. -/
theorem get_job_error_handling :
    (∀ (retention : Int) (now : Time) (s : AWX.Store) (id : UUID),
       alist_lookup s.jobs id = none →
       alist_lookup s.disk id = none →
       AWX.JobManager.get_job retention now s id = (s, none))
    ∧ (∀ (retention : Int) (now : Time) (s : AWX.Store) (id : UUID)
       (data : Json),
       alist_lookup s.jobs id = none →
       alist_lookup s.disk id = some data →
       AWX.JobRecord.tryParse data = none →
       AWX.JobManager.get_job retention now s id
         = ({ s with disk := alist_erase s.disk id }, none))
    ∧ (∀ (retention : Int) (now : Time) (s : DNS.Store) (id : UUID),
       alist_lookup s.jobs id = none →
       alist_lookup s.disk id = none →
       DNS.JobManager.get_job retention now s id = (s, none))
    ∧ (∀ (retention : Int) (now : Time) (s : DNS.Store) (id : UUID)
       (data : Json),
       alist_lookup s.jobs id = none →
       alist_lookup s.disk id = some data →
       DNS.RecordJob.parse data = none →
       DNS.JobManager.get_job retention now s id
         = ({ s with disk := alist_erase s.disk id }, none)) := by
  refine ⟨?_, ?_, ?_, ?_⟩
  · intro retention now s id hmem hdisk
    unfold AWX.JobManager.get_job
    rw [hmem, hdisk]
  · intro retention now s id data hmem hdisk hparse
    unfold AWX.JobManager.get_job
    rw [hmem, hdisk]
    simp only [hparse]
  · intro retention now s id hmem hdisk
    unfold DNS.JobManager.get_job
    rw [hmem, hdisk]
  · intro retention now s id data hmem hdisk hparse
    unfold DNS.JobManager.get_job
    rw [hmem, hdisk]
    simp only [hparse]

/-- C7, witness: the theorem applied to an empty store (double miss) and
to stores whose only disk file is the unparseable `"garbage"` value. -/
theorem get_job_error_handling_witness :
    (AWX.JobManager.get_job 30 1000 AWX.store_empty 4
      = (AWX.store_empty, none))
    ∧ (AWX.JobManager.get_job 30 1000 AWX.store_corrupt 9
      = ({ AWX.store_corrupt with
            disk := alist_erase AWX.store_corrupt.disk 9 }, none))
    ∧ (DNS.JobManager.get_job 30 1000 DNS.dns_store_empty 4
      = (DNS.dns_store_empty, none))
    ∧ (DNS.JobManager.get_job 30 1000 DNS.dns_store_corrupt 9
      = ({ DNS.dns_store_corrupt with
            disk := alist_erase DNS.dns_store_corrupt.disk 9 }, none)) :=
  ⟨get_job_error_handling.1 30 1000 AWX.store_empty 4 rfl rfl,
   get_job_error_handling.2.1 30 1000 AWX.store_corrupt 9
      (Json.str "garbage") rfl rfl rfl,
   get_job_error_handling.2.2.1 30 1000 DNS.dns_store_empty 4 rfl rfl,
   get_job_error_handling.2.2.2 30 1000 DNS.dns_store_corrupt 9
      (Json.str "garbage") rfl rfl rfl⟩

namespace AWX

/-- A store whose cache directory rejects writes (`Path.write_text`
raises), holding the job `awx_done` in memory. -/
def store_bad_disk : Store := ⟨[(4, .awx awx_done)], [], false, some 1000⟩

end AWX

namespace DNS

/-- A DNS store whose cache directory rejects writes, holding `dns_done`
in memory. -/
def dns_store_bad_disk : Store := ⟨[(4, dns_done)], [], false, some 1000⟩

end DNS

/-- C8, counterexample: a disk write failure during the terminal flush is
not absorbed.  On a store whose cache directory rejects writes, the
terminal `update_status` call raises (the `.error` result) instead of
logging and returning the updated record as the claim requires. -/
theorem persist_failure_not_absorbed_counterexample :
    (AWX.JobManager.update_status 30 1000 AWX.store_bad_disk 4 .completed
        none AWX.ResultUpdates.empty).2 = .error ()
    ∧ (AWX.JobManager.update_status 30 1000 AWX.store_bad_disk 4 .completed
        none AWX.ResultUpdates.empty).1.disk = []
    ∧ (DNS.JobManager.update_status 30 1000 DNS.dns_store_bad_disk 4
        .completed none DNS.DocUpdates.empty).2 = .error () :=
  ⟨rfl, rfl, rfl⟩

/-- C8, amended: `_persist_job` has no exception handling, so a disk write
failure during the terminal flush propagates out of `update_status` to its
caller and the call returns no record; the in-memory record has already
been mutated (status set and `completed_at` stamped) and nothing reaches
the disk.  Only the fire-and-forget submission boundary keeps such a
failure away from the submitter.  Both managers behave identically. -/
theorem persist_failure_raises :
    (∀ (retention : Int) (now : Time) (s : AWX.Store) (id : UUID)
       (j : AWX.JobRecord) (st : AWX.AWXAgentJobStatus)
       (msg : Option String) (kw : AWX.ResultUpdates) (lp : Time),
       alist_lookup s.jobs id = some j →
       st.isTerminal = true →
       s.disk_ok = false →
       s.last_purge = some lp →
       now - lp < 60 →
       (AWX.JobManager.update_status retention now s id st msg kw).2
         = .error ()
       ∧ (AWX.JobManager.update_status retention now s id st msg kw).1.disk
         = s.disk
       ∧ ∃ j2, alist_lookup
           (AWX.JobManager.update_status retention now s id st msg kw).1.jobs
           id = some j2 ∧ j2.status = st ∧ j2.completed_at = some now)
    ∧ (∀ (retention : Int) (now : Time) (s : DNS.Store) (id : UUID)
       (j : DNS.RecordJob) (st : DNS.RecordJobStatus)
       (msg : Option String) (kw : DNS.DocUpdates) (lp : Time),
       alist_lookup s.jobs id = some j →
       st.isTerminal = true →
       s.disk_ok = false →
       s.last_purge = some lp →
       now - lp < 60 →
       (DNS.JobManager.update_status retention now s id st msg kw).2
         = .error ()
       ∧ (DNS.JobManager.update_status retention now s id st msg kw).1.disk
         = s.disk
       ∧ ∃ j2, alist_lookup
           (DNS.JobManager.update_status retention now s id st msg kw).1.jobs
           id = some j2 ∧ j2.status = st ∧ j2.completed_at = some now) := by
  constructor
  · intro retention now s id j st msg kw lp hj ht hdok hlp hrec
    obtain ⟨hmem, -, -, -, -, herr⟩ :=
      AWX.JobManager.update_status_frame retention now s id st msg kw j lp
        hj hlp hrec
    obtain ⟨hdisk, hret⟩ := herr ht hdok
    exact ⟨hret, hdisk, j.transitioned st msg kw now, hmem,
      AWX.transitioned_status j st msg kw now,
      AWX.transitioned_completed_at_terminal j st msg kw now ht⟩
  · intro retention now s id j st msg kw lp hj ht hdok hlp hrec
    obtain ⟨hmem, -, -, -, -, herr⟩ :=
      DNS.JobManager.dns_update_status_frame retention now s id st msg kw j lp
        hj hlp hrec
    obtain ⟨hdisk, hret⟩ := herr ht hdok
    exact ⟨hret, hdisk, j.transitioned st msg kw now, hmem,
      DNS.record_transitioned_status j st msg kw now,
      DNS.record_transitioned_completed_at_terminal j st msg kw now ht⟩

/-- C8, witness: the amended theorem applied to the concrete stores whose
cache directory rejects writes. -/
theorem persist_failure_raises_witness :
    ((AWX.JobManager.update_status 30 1000 AWX.store_bad_disk 4 .completed
        none AWX.ResultUpdates.empty).2 = .error ()
      ∧ (AWX.JobManager.update_status 30 1000 AWX.store_bad_disk 4
          .completed none AWX.ResultUpdates.empty).1.disk
        = AWX.store_bad_disk.disk
      ∧ ∃ j2, alist_lookup (AWX.JobManager.update_status 30 1000
          AWX.store_bad_disk 4 .completed none
          AWX.ResultUpdates.empty).1.jobs 4 = some j2
        ∧ j2.status = .completed ∧ j2.completed_at = some 1000)
    ∧ ((DNS.JobManager.update_status 30 1000 DNS.dns_store_bad_disk 4
        .completed none DNS.DocUpdates.empty).2 = .error ()
      ∧ (DNS.JobManager.update_status 30 1000 DNS.dns_store_bad_disk 4
          .completed none DNS.DocUpdates.empty).1.disk
        = DNS.dns_store_bad_disk.disk
      ∧ ∃ j2, alist_lookup (DNS.JobManager.update_status 30 1000
          DNS.dns_store_bad_disk 4 .completed none
          DNS.DocUpdates.empty).1.jobs 4 = some j2
        ∧ j2.status = .completed ∧ j2.completed_at = some 1000) :=
  ⟨persist_failure_raises.1 30 1000 AWX.store_bad_disk 4
      (.awx AWX.awx_done) .completed none AWX.ResultUpdates.empty 1000
      rfl rfl rfl rfl (by decide),
   persist_failure_raises.2 30 1000 DNS.dns_store_bad_disk 4
      DNS.dns_done .completed none DNS.DocUpdates.empty 1000
      rfl rfl rfl rfl (by decide)⟩

/-- When the transition is non-terminal, or the disk accepts writes, the
AWX `update_status` returns the transitioned record. -/
theorem AWX.JobManager.update_status_ret_ok (retention : Int) (now : Time)
    (s : AWX.Store) (id : UUID) (st : AWX.AWXAgentJobStatus)
    (msg : Option String) (kw : AWX.ResultUpdates) (j : AWX.JobRecord)
    (hj : alist_lookup s.jobs id = some j)
    (hok : st.isTerminal = false ∨ s.disk_ok = true) :
    (AWX.JobManager.update_status retention now s id st msg kw).2
      = .ok (some (j.transitioned st msg kw now)) := by
  unfold AWX.JobManager.update_status
  rw [hj]
  by_cases ht : st.isTerminal = true
  · rw [AWX.JobRecord.transitioned, if_pos ht]
    have hd : s.disk_ok = true := by
      rcases hok with h | h
      · rw [ht] at h; cases h
      · exact h
    simp [ht, hd]
  · rw [AWX.JobRecord.transitioned, if_neg ht]
    simp [eq_false_of_ne_true ht]

/-- When the transition is non-terminal, or the disk accepts writes, the
DNS `update_status` returns the transitioned record. -/
theorem DNS.JobManager.dns_update_status_ret_ok (retention : Int) (now : Time)
    (s : DNS.Store) (id : UUID) (st : DNS.RecordJobStatus)
    (msg : Option String) (kw : DNS.DocUpdates) (j : DNS.RecordJob)
    (hj : alist_lookup s.jobs id = some j)
    (hok : st.isTerminal = false ∨ s.disk_ok = true) :
    (DNS.JobManager.update_status retention now s id st msg kw).2
      = .ok (some (j.transitioned st msg kw now)) := by
  unfold DNS.JobManager.update_status
  rw [hj]
  by_cases ht : st.isTerminal = true
  · rw [DNS.RecordJob.transitioned, if_pos ht]
    have hd : s.disk_ok = true := by
      rcases hok with h | h
      · rw [ht] at h; cases h
      · exact h
    simp [ht, hd]
  · rw [DNS.RecordJob.transitioned, if_neg ht]
    simp [eq_false_of_ne_true ht]

/-- C4: terminal-only persistence.  For an `update_status` call on a job
present in memory (with the purge pass not due and a writable disk), a
terminal transition returns the updated record with `completed_at` stamped
to the call time and flushes exactly that record to the disk cache under
the record's id, while a non-terminal transition returns the updated
record with `completed_at` untouched and leaves the disk cache exactly as
it was.  Both managers behave identically. -/
theorem terminal_only_persistence :
    (∀ (retention : Int) (now : Time) (s : AWX.Store) (id : UUID)
       (j : AWX.JobRecord) (st : AWX.AWXAgentJobStatus)
       (msg : Option String) (kw : AWX.ResultUpdates) (lp : Time),
       alist_lookup s.jobs id = some j →
       s.last_purge = some lp → now - lp < 60 →
       s.disk_ok = true → st.isTerminal = true →
       (AWX.JobManager.update_status retention now s id st msg kw).2
         = .ok (some (j.transitioned st msg kw now))
       ∧ (j.transitioned st msg kw now).completed_at = some now
       ∧ alist_lookup
           (AWX.JobManager.update_status retention now s id st msg kw).1.disk
           (j.transitioned st msg kw now).job_id
         = some (j.transitioned st msg kw now).toJson)
    ∧ (∀ (retention : Int) (now : Time) (s : AWX.Store) (id : UUID)
       (j : AWX.JobRecord) (st : AWX.AWXAgentJobStatus)
       (msg : Option String) (kw : AWX.ResultUpdates) (lp : Time),
       alist_lookup s.jobs id = some j →
       s.last_purge = some lp → now - lp < 60 →
       st.isTerminal = false →
       (AWX.JobManager.update_status retention now s id st msg kw).2
         = .ok (some (j.transitioned st msg kw now))
       ∧ (j.transitioned st msg kw now).completed_at = j.completed_at
       ∧ (AWX.JobManager.update_status retention now s id st msg kw).1.disk
         = s.disk)
    ∧ (∀ (retention : Int) (now : Time) (s : DNS.Store) (id : UUID)
       (j : DNS.RecordJob) (st : DNS.RecordJobStatus)
       (msg : Option String) (kw : DNS.DocUpdates) (lp : Time),
       alist_lookup s.jobs id = some j →
       s.last_purge = some lp → now - lp < 60 →
       s.disk_ok = true → st.isTerminal = true →
       (DNS.JobManager.update_status retention now s id st msg kw).2
         = .ok (some (j.transitioned st msg kw now))
       ∧ (j.transitioned st msg kw now).completed_at = some now
       ∧ alist_lookup
           (DNS.JobManager.update_status retention now s id st msg kw).1.disk
           (j.transitioned st msg kw now).job_id
         = some (j.transitioned st msg kw now).toJson)
    ∧ (∀ (retention : Int) (now : Time) (s : DNS.Store) (id : UUID)
       (j : DNS.RecordJob) (st : DNS.RecordJobStatus)
       (msg : Option String) (kw : DNS.DocUpdates) (lp : Time),
       alist_lookup s.jobs id = some j →
       s.last_purge = some lp → now - lp < 60 →
       st.isTerminal = false →
       (DNS.JobManager.update_status retention now s id st msg kw).2
         = .ok (some (j.transitioned st msg kw now))
       ∧ (j.transitioned st msg kw now).completed_at = j.completed_at
       ∧ (DNS.JobManager.update_status retention now s id st msg kw).1.disk
         = s.disk) := by
  refine ⟨?_, ?_, ?_, ?_⟩
  · intro retention now s id j st msg kw lp hj hlp hrec hdok ht
    obtain ⟨-, -, -, hdisk, -, -⟩ :=
      AWX.JobManager.update_status_frame retention now s id st msg kw j lp
        hj hlp hrec
    refine ⟨AWX.JobManager.update_status_ret_ok retention now s id st msg kw
        j hj (Or.inr hdok), AWX.transitioned_completed_at_terminal j st msg
        kw now ht, ?_⟩
    rw [hdisk ht hdok]
    exact alist_lookup_insert _ _ _
  · intro retention now s id j st msg kw lp hj hlp hrec ht
    obtain ⟨-, -, -, -, hdisk, -⟩ :=
      AWX.JobManager.update_status_frame retention now s id st msg kw j lp
        hj hlp hrec
    exact ⟨AWX.JobManager.update_status_ret_ok retention now s id st msg kw
        j hj (Or.inl ht),
      AWX.transitioned_completed_at_nonterminal j st msg kw now ht,
      hdisk ht⟩
  · intro retention now s id j st msg kw lp hj hlp hrec hdok ht
    obtain ⟨-, -, -, hdisk, -, -⟩ :=
      DNS.JobManager.dns_update_status_frame retention now s id st msg kw j lp
        hj hlp hrec
    refine ⟨DNS.JobManager.dns_update_status_ret_ok retention now s id st msg kw
        j hj (Or.inr hdok), DNS.record_transitioned_completed_at_terminal j
        st msg kw now ht, ?_⟩
    rw [hdisk ht hdok]
    exact alist_lookup_insert _ _ _
  · intro retention now s id j st msg kw lp hj hlp hrec ht
    obtain ⟨-, -, -, -, hdisk, -⟩ :=
      DNS.JobManager.dns_update_status_frame retention now s id st msg kw j lp
        hj hlp hrec
    exact ⟨DNS.JobManager.dns_update_status_ret_ok retention now s id st msg kw
        j hj (Or.inl ht),
      DNS.record_transitioned_completed_at_nonterminal j st msg kw now ht,
      hdisk ht⟩

/-- C4, witness: the theorem applied to the concrete stores, with the
terminal transition COMPLETED and the non-terminal transition
MONITORING (AWX) and APPLYING (DNS). -/
theorem terminal_only_persistence_witness :
    ((AWX.JobManager.update_status 30 1000 AWX.store_c1 4 .completed none
        AWX.ResultUpdates.empty).2
      = .ok (some ((AWX.JobRecord.awx AWX.awx_done).transitioned .completed
          none AWX.ResultUpdates.empty 1000))
     ∧ ((AWX.JobRecord.awx AWX.awx_done).transitioned .completed none
          AWX.ResultUpdates.empty 1000).completed_at = some 1000
     ∧ alist_lookup (AWX.JobManager.update_status 30 1000 AWX.store_c1 4
          .completed none AWX.ResultUpdates.empty).1.disk
         ((AWX.JobRecord.awx AWX.awx_done).transitioned .completed none
          AWX.ResultUpdates.empty 1000).job_id
       = some ((AWX.JobRecord.awx AWX.awx_done).transitioned .completed none
          AWX.ResultUpdates.empty 1000).toJson)
    ∧ ((AWX.JobManager.update_status 30 1000 AWX.store_c1 4 .monitoring none
        AWX.ResultUpdates.empty).2
      = .ok (some ((AWX.JobRecord.awx AWX.awx_done).transitioned .monitoring
          none AWX.ResultUpdates.empty 1000))
     ∧ ((AWX.JobRecord.awx AWX.awx_done).transitioned .monitoring none
          AWX.ResultUpdates.empty 1000).completed_at
       = (AWX.JobRecord.awx AWX.awx_done).completed_at
     ∧ (AWX.JobManager.update_status 30 1000 AWX.store_c1 4 .monitoring none
          AWX.ResultUpdates.empty).1.disk = AWX.store_c1.disk)
    ∧ ((DNS.JobManager.update_status 30 1000 DNS.dns_store_c1 4 .completed
        none DNS.DocUpdates.empty).2
      = .ok (some (DNS.dns_done.transitioned .completed none
          DNS.DocUpdates.empty 1000))
     ∧ (DNS.dns_done.transitioned .completed none DNS.DocUpdates.empty
          1000).completed_at = some 1000
     ∧ alist_lookup (DNS.JobManager.update_status 30 1000 DNS.dns_store_c1 4
          .completed none DNS.DocUpdates.empty).1.disk
         (DNS.dns_done.transitioned .completed none DNS.DocUpdates.empty
          1000).job_id
       = some ((DNS.dns_done.transitioned .completed none DNS.DocUpdates.empty
          1000).toJson))
    ∧ ((DNS.JobManager.update_status 30 1000 DNS.dns_store_c1 4 .applying
        none DNS.DocUpdates.empty).2
      = .ok (some (DNS.dns_done.transitioned .applying none
          DNS.DocUpdates.empty 1000))
     ∧ (DNS.dns_done.transitioned .applying none DNS.DocUpdates.empty
          1000).completed_at = DNS.dns_done.completed_at
     ∧ (DNS.JobManager.update_status 30 1000 DNS.dns_store_c1 4 .applying
          none DNS.DocUpdates.empty).1.disk = DNS.dns_store_c1.disk) :=
  ⟨terminal_only_persistence.1 30 1000 AWX.store_c1 4 (.awx AWX.awx_done)
      .completed none AWX.ResultUpdates.empty 1000 rfl rfl (by decide)
      rfl rfl,
   terminal_only_persistence.2.1 30 1000 AWX.store_c1 4 (.awx AWX.awx_done)
      .monitoring none AWX.ResultUpdates.empty 1000 rfl rfl (by decide) rfl,
   terminal_only_persistence.2.2.1 30 1000 DNS.dns_store_c1 4 DNS.dns_done
      .completed none DNS.DocUpdates.empty 1000 rfl rfl (by decide) rfl rfl,
   terminal_only_persistence.2.2.2 30 1000 DNS.dns_store_c1 4 DNS.dns_done
      .applying none DNS.DocUpdates.empty 1000 rfl rfl (by decide) rfl⟩

/-- C5: purge correctness at the retention boundary, stated against one
purge pass (`purge_old_jobs`) with `cutoff = now - retention minutes`.
In-memory jobs completed strictly before the cutoff are evicted; all other
in-memory jobs survive unchanged.  Well-formed disk records completed
strictly before the cutoff are deleted; all other well-formed disk records
— in particular every record with no `completed_at` — survive byte for
byte.  Both managers behave identically (the duplicate-free key hypotheses
reflect that a directory holds one file per name and a dict one entry per
key). -/
theorem purge_retention_boundary :
    (∀ (retention : Int) (now : Time) (s : AWX.Store) (id : UUID)
       (j : AWX.JobRecord),
       (s.jobs.map Prod.fst).Nodup →
       alist_lookup s.jobs id = some j →
       AWX.is_older j.completed_at (now - retention * 60) = true →
       alist_lookup (AWX.JobManager.purge_old_jobs retention now s).jobs id
         = none)
    ∧ (∀ (retention : Int) (now : Time) (s : AWX.Store) (id : UUID)
       (j : AWX.JobRecord),
       alist_lookup s.jobs id = some j →
       AWX.is_older j.completed_at (now - retention * 60) = false →
       alist_lookup (AWX.JobManager.purge_old_jobs retention now s).jobs id
         = some j)
    ∧ (∀ (retention : Int) (now : Time) (s : AWX.Store) (id : UUID)
       (data : Json) (j : AWX.JobRecord),
       (s.disk.map Prod.fst).Nodup →
       alist_lookup s.disk id = some data →
       AWX.JobRecord.tryParse data = some j →
       AWX.is_older j.completed_at (now - retention * 60) = true →
       alist_lookup (AWX.JobManager.purge_old_jobs retention now s).disk id
         = none)
    ∧ (∀ (retention : Int) (now : Time) (s : AWX.Store) (id : UUID)
       (data : Json) (j : AWX.JobRecord),
       alist_lookup s.disk id = some data →
       AWX.JobRecord.tryParse data = some j →
       AWX.is_older j.completed_at (now - retention * 60) = false →
       alist_lookup (AWX.JobManager.purge_old_jobs retention now s).disk id
         = some data)
    ∧ (∀ (retention : Int) (now : Time) (s : AWX.Store) (id : UUID)
       (data : Json) (j : AWX.JobRecord),
       alist_lookup s.disk id = some data →
       AWX.JobRecord.tryParse data = some j →
       j.completed_at = none →
       alist_lookup (AWX.JobManager.purge_old_jobs retention now s).disk id
         = some data)
    ∧ (∀ (retention : Int) (now : Time) (s : DNS.Store) (id : UUID)
       (j : DNS.RecordJob),
       (s.jobs.map Prod.fst).Nodup →
       alist_lookup s.jobs id = some j →
       DNS.is_older j.completed_at (now - retention * 60) = true →
       alist_lookup (DNS.JobManager.purge_old_jobs retention now s).jobs id
         = none)
    ∧ (∀ (retention : Int) (now : Time) (s : DNS.Store) (id : UUID)
       (j : DNS.RecordJob),
       alist_lookup s.jobs id = some j →
       DNS.is_older j.completed_at (now - retention * 60) = false →
       alist_lookup (DNS.JobManager.purge_old_jobs retention now s).jobs id
         = some j)
    ∧ (∀ (retention : Int) (now : Time) (s : DNS.Store) (id : UUID)
       (data : Json) (j : DNS.RecordJob),
       (s.disk.map Prod.fst).Nodup →
       alist_lookup s.disk id = some data →
       DNS.RecordJob.parse data = some j →
       DNS.is_older j.completed_at (now - retention * 60) = true →
       alist_lookup (DNS.JobManager.purge_old_jobs retention now s).disk id
         = none)
    ∧ (∀ (retention : Int) (now : Time) (s : DNS.Store) (id : UUID)
       (data : Json) (j : DNS.RecordJob),
       alist_lookup s.disk id = some data →
       DNS.RecordJob.parse data = some j →
       DNS.is_older j.completed_at (now - retention * 60) = false →
       alist_lookup (DNS.JobManager.purge_old_jobs retention now s).disk id
         = some data)
    ∧ (∀ (retention : Int) (now : Time) (s : DNS.Store) (id : UUID)
       (data : Json) (j : DNS.RecordJob),
       alist_lookup s.disk id = some data →
       DNS.RecordJob.parse data = some j →
       j.completed_at = none →
       alist_lookup (DNS.JobManager.purge_old_jobs retention now s).disk id
         = some data) := by
  refine ⟨?_, ?_, ?_, ?_, ?_, ?_, ?_, ?_, ?_, ?_⟩
  · intro retention now s id j hnd hj hold
    unfold AWX.JobManager.purge_old_jobs
    exact alist_lookup_filter_drop s.jobs id j _ hnd hj (by simp [hold])
  · intro retention now s id j hj hkeep
    unfold AWX.JobManager.purge_old_jobs
    exact alist_lookup_filter_keep s.jobs id j _ hj (by simp [hkeep])
  · intro retention now s id data j hnd hd hp hold
    unfold AWX.JobManager.purge_old_jobs
    exact alist_lookup_filter_drop s.disk id data _ hnd hd
      (by simp [hp, hold])
  · intro retention now s id data j hd hp hkeep
    unfold AWX.JobManager.purge_old_jobs
    exact alist_lookup_filter_keep s.disk id data _ hd (by simp [hp, hkeep])
  · intro retention now s id data j hd hp hnone
    unfold AWX.JobManager.purge_old_jobs
    exact alist_lookup_filter_keep s.disk id data _ hd
      (by simp [hp, hnone, AWX.is_older])
  · intro retention now s id j hnd hj hold
    unfold DNS.JobManager.purge_old_jobs
    exact alist_lookup_filter_drop s.jobs id j _ hnd hj (by simp [hold])
  · intro retention now s id j hj hkeep
    unfold DNS.JobManager.purge_old_jobs
    exact alist_lookup_filter_keep s.jobs id j _ hj (by simp [hkeep])
  · intro retention now s id data j hnd hd hp hold
    unfold DNS.JobManager.purge_old_jobs
    exact alist_lookup_filter_drop s.disk id data _ hnd hd
      (by simp [hp, hold])
  · intro retention now s id data j hd hp hkeep
    unfold DNS.JobManager.purge_old_jobs
    exact alist_lookup_filter_keep s.disk id data _ hd (by simp [hp, hkeep])
  · intro retention now s id data j hd hp hnone
    unfold DNS.JobManager.purge_old_jobs
    exact alist_lookup_filter_keep s.disk id data _ hd
      (by simp [hp, hnone, DNS.is_older])

namespace AWX

/-- A job completed long before the retention cutoff. -/
def awx_old : AWXJob :=
  ⟨1, .completed, 50, some 100, jt_req0, none, none, none, none, none, none,
   none, [], none, none⟩

/-- A job completed after the retention cutoff. -/
def awx_fresh : AWXJob :=
  ⟨2, .completed, 50, some 4900, jt_req0, none, none, none, none, none, none,
   none, [], none, none⟩

/-- A job that never completed. -/
def awx_never : AWXJob :=
  ⟨3, .monitoring, 50, none, jt_req0, none, none, none, none, none, none,
   none, [], none, none⟩

/-- A store exercising the purge boundary: at `now = 5000` with a
30-minute retention the cutoff is 3200, so only job 1 is past it. -/
def store_c5 : Store :=
  ⟨[(1, .awx awx_old), (2, .awx awx_fresh)],
   [(1, (JobRecord.awx awx_old).toJson), (2, (JobRecord.awx awx_fresh).toJson),
    (3, (JobRecord.awx awx_never).toJson)],
   true, some 4000⟩

end AWX

namespace DNS

/-- A DNS job completed long before the retention cutoff. -/
def dns_old : RecordJob := ⟨1, .completed, 50, some 100, dns_req0, none, none, none⟩

/-- A DNS job completed after the retention cutoff. -/
def dns_fresh : RecordJob := ⟨2, .completed, 50, some 4900, dns_req0, none, none, none⟩

/-- A DNS job that never completed. -/
def dns_never : RecordJob := ⟨3, .applying, 50, none, dns_req0, none, none, none⟩

/-- The DNS analogue of `AWX.store_c5`. -/
def dns_store_c5 : Store :=
  ⟨[(1, dns_old), (2, dns_fresh)],
   [(1, dns_old.toJson), (2, dns_fresh.toJson), (3, dns_never.toJson)],
   true, some 4000⟩

end DNS

/-- C5, witness: one purge pass at `now = 5000` with retention 30 minutes
on the concrete stores; the job completed at 100 disappears from memory
and disk, the job completed at 4900 and the never-completed job survive. -/
theorem purge_retention_boundary_witness :
    (alist_lookup (AWX.JobManager.purge_old_jobs 30 5000 AWX.store_c5).jobs 1
      = none)
    ∧ (alist_lookup (AWX.JobManager.purge_old_jobs 30 5000 AWX.store_c5).jobs 2
      = some (.awx AWX.awx_fresh))
    ∧ (alist_lookup (AWX.JobManager.purge_old_jobs 30 5000 AWX.store_c5).disk 1
      = none)
    ∧ (alist_lookup (AWX.JobManager.purge_old_jobs 30 5000 AWX.store_c5).disk 2
      = some ((AWX.JobRecord.awx AWX.awx_fresh).toJson))
    ∧ (alist_lookup (AWX.JobManager.purge_old_jobs 30 5000 AWX.store_c5).disk 3
      = some ((AWX.JobRecord.awx AWX.awx_never).toJson))
    ∧ (alist_lookup (DNS.JobManager.purge_old_jobs 30 5000 DNS.dns_store_c5).jobs 1
      = none)
    ∧ (alist_lookup (DNS.JobManager.purge_old_jobs 30 5000 DNS.dns_store_c5).jobs 2
      = some DNS.dns_fresh)
    ∧ (alist_lookup (DNS.JobManager.purge_old_jobs 30 5000 DNS.dns_store_c5).disk 1
      = none)
    ∧ (alist_lookup (DNS.JobManager.purge_old_jobs 30 5000 DNS.dns_store_c5).disk 2
      = some (DNS.dns_fresh.toJson))
    ∧ (alist_lookup (DNS.JobManager.purge_old_jobs 30 5000 DNS.dns_store_c5).disk 3
      = some (DNS.dns_never.toJson)) :=
  ⟨purge_retention_boundary.1 30 5000 AWX.store_c5 1 (.awx AWX.awx_old)
      (by decide) rfl rfl,
   purge_retention_boundary.2.1 30 5000 AWX.store_c5 2 (.awx AWX.awx_fresh)
      rfl rfl,
   purge_retention_boundary.2.2.1 30 5000 AWX.store_c5 1
      ((AWX.JobRecord.awx AWX.awx_old).toJson) (.awx AWX.awx_old)
      (by decide) rfl rfl rfl,
   purge_retention_boundary.2.2.2.1 30 5000 AWX.store_c5 2
      ((AWX.JobRecord.awx AWX.awx_fresh).toJson) (.awx AWX.awx_fresh)
      rfl rfl rfl,
   purge_retention_boundary.2.2.2.2.1 30 5000 AWX.store_c5 3
      ((AWX.JobRecord.awx AWX.awx_never).toJson) (.awx AWX.awx_never)
      rfl rfl rfl,
   purge_retention_boundary.2.2.2.2.2.1 30 5000 DNS.dns_store_c5 1
      DNS.dns_old (by decide) rfl rfl,
   purge_retention_boundary.2.2.2.2.2.2.1 30 5000 DNS.dns_store_c5 2
      DNS.dns_fresh rfl rfl,
   purge_retention_boundary.2.2.2.2.2.2.2.1 30 5000 DNS.dns_store_c5 1
      (DNS.dns_old.toJson) DNS.dns_old (by decide) rfl rfl rfl,
   purge_retention_boundary.2.2.2.2.2.2.2.2.1 30 5000 DNS.dns_store_c5 2
      (DNS.dns_fresh.toJson) DNS.dns_fresh rfl rfl rfl,
   purge_retention_boundary.2.2.2.2.2.2.2.2.2 30 5000 DNS.dns_store_c5 3
      (DNS.dns_never.toJson) DNS.dns_never rfl rfl rfl⟩

namespace AWX

/-- A concrete orchestration request (its text is 26 characters, above the
`min_length=10` bound). -/
def orch_req0 : OrchestrationRequest :=
  ⟨"Deploy nginx on Kubernetes", [], [("who", "me")]⟩

/-- An orchestration job persisted in the terminal state COMPLETED with
result fields set. -/
def orch_done : OrchestrationJob :=
  ⟨7, .completed, 100, some 900, orch_req0, some "done", [], [],
   some "resp", none⟩

/-- What `AWXJob.parse_raw` makes of the serialized `orch_done`: pydantic
ignores the unknown orchestration keys and fills the all-optional
`JobTemplateRequest` from the orchestration request dict, so the parse
SUCCEEDS and yields this `AWXJob` — the wrong kind, with the request
payload and every orchestration result field lost. -/
def c2_misparsed : AWXJob :=
  ⟨7, .completed, 100, some 900,
   ⟨none, none, [], none, none, [("who", "me")]⟩,
   some "done", none, none, none, none, none, none, [], none, none⟩

/-- A store whose in-memory copy of job 7 has been evicted, with the
serialized `orch_done` in the disk cache. -/
def store_c2 : Store := ⟨[], [(7, orch_done.toJson)], true, some 1000⟩

end AWX

/-- C2: hydration does not round-trip for orchestration records.  With the
in-memory copy evicted, `get_job` tries `AWXJob.parse_raw` first; because
pydantic v1 ignores unknown keys and every field of `JobTemplateRequest`
is optional, the serialized `OrchestrationJob` parses successfully as an
`AWXJob`, so the lookup returns a record of the wrong kind that differs
from the original (request payload defaulted, orchestration result fields
dropped) — even though the same bytes do parse correctly as the
`OrchestrationJob` that was written. -/
theorem orchestration_record_hydrates_as_awx :
    (AWX.JobManager.get_job 30 1000 AWX.store_c2 7).2
      = some (.awx AWX.c2_misparsed)
    ∧ (AWX.JobManager.get_job 30 1000 AWX.store_c2 7).2
      ≠ some (.orch AWX.orch_done)
    ∧ AWX.JobRecord.tryParse AWX.orch_done.toJson
      = some (.awx AWX.c2_misparsed)
    ∧ AWX.OrchestrationJob.parse AWX.orch_done.toJson = some AWX.orch_done := by
  refine ⟨rfl, ?_, rfl, rfl⟩
  intro h
  rw [show (AWX.JobManager.get_job 30 1000 AWX.store_c2 7).2
      = some (.awx AWX.c2_misparsed) from rfl] at h
  exact AWX.JobRecord.noConfusion (Option.some.inj h)

namespace AWX

/-- Collaborators for the C3 scenario: every template name resolves,
launching returns AWX job id 101, and waiting reports the backend job
FAILED — i.e. step 1's execution fails. -/
def c3_graph_env : GraphEnv :=
  ⟨fun _ => some ⟨5, "test-any"⟩,
   fun _ _ => .ok [("id", .num 101)],
   fun _ => .ok [("status", .str "failed")]⟩

/-- The submitted parent orchestration job, still in RECEIVED. -/
def orch_pending : OrchestrationJob :=
  ⟨7, .received, 100, none, orch_req0, none, [], [], none, none⟩

/-- The store right after submitting `orch_pending`. -/
def store_c3 : Store := ⟨[(7, .orch orch_pending)], [], true, some 1000⟩

/-- The driver environment for the C3 scenario. -/
def c3_env : OrchDriverEnv := ⟨c3_graph_env, fun k => 500 + Int.ofNat k⟩

/-- Number of tracked child AWX jobs of an orchestration record. -/
def orch_children_count : Option JobRecord → Option Nat
  | some (.orch j) => some j.awx_jobs.length
  | _ => none

end AWX

/-- C3: on the two-step request "Deploy nginx on Kubernetes" whose first
step fails (the launched AWX job 101 ends with backend status "failed"),
the workflow does abort the sequence — only one AWX job is ever launched
and the failure is recorded in the graph state — but
`process_orchestration_job` ignores the orchestrator's returned error and
stamps the parent job COMPLETED with exactly one child recorded, where the
claim (and the spec scenario) requires FAILED. -/
theorem step_failure_parent_marked_completed :
    (AWX.workflow_invoke AWX.c3_graph_env "Deploy nginx on Kubernetes"
      []).decomposed_tasks.length = 2
    ∧ (AWX.workflow_invoke AWX.c3_graph_env "Deploy nginx on Kubernetes"
      []).awx_job_ids = [101]
    ∧ (AWX.workflow_invoke AWX.c3_graph_env "Deploy nginx on Kubernetes"
      []).error.isSome = true
    ∧ (alist_lookup (AWX.process_orchestration_job AWX.c3_env 30 1000
        AWX.store_c3 7).1.jobs 7).map AWX.JobRecord.status
      = some .completed
    ∧ AWX.orch_children_count (alist_lookup (AWX.process_orchestration_job
        AWX.c3_env 30 1000 AWX.store_c3 7).1.jobs 7) = some 1
    ∧ AWX.AWXAgentJobStatus.completed ≠ AWX.AWXAgentJobStatus.failed :=
  ⟨rfl, rfl, rfl, rfl, rfl, by decide⟩

/-- C6: adapter auth-retry semantics of `AWXAdapter._request`.  A single
401 response triggers exactly one transparent retry: the stored token is
dropped, `_get_token` mints a fresh token (the refresh counter advances),
and the second response is returned to the caller as if no failure had
occurred.  Two consecutive 401 responses make `raise_for_status` propagate
the auth error after the second attempt.  A request never makes a third
attempt, and without a 401 there is no retry at all. -/
theorem adapter_auth_retry :
    (∀ (env : AWX.AdapterEnv) (st : AWX.AdapterState),
       env.code 0 = 401 → env.code 1 < 400 →
       (AWX.AWXAdapter.request env st).result = .ok 1
       ∧ (AWX.AWXAdapter.request env st).attempts = 2
       ∧ (AWX.AWXAdapter.request env st).tokens_used
         = [(AWX.AWXAdapter.get_token env st).1,
            env.fresh (AWX.AWXAdapter.get_token env st).2.refreshes]
       ∧ (AWX.AWXAdapter.request env st).state.refreshes
         = (AWX.AWXAdapter.get_token env st).2.refreshes + 1)
    ∧ (∀ (env : AWX.AdapterEnv) (st : AWX.AdapterState),
       env.code 0 = 401 → env.code 1 = 401 →
       (AWX.AWXAdapter.request env st).result = .error 401
       ∧ (AWX.AWXAdapter.request env st).attempts = 2)
    ∧ (∀ (env : AWX.AdapterEnv) (st : AWX.AdapterState),
       env.code 0 ≠ 401 →
       (AWX.AWXAdapter.request env st).attempts = 1)
    ∧ (∀ (env : AWX.AdapterEnv) (st : AWX.AdapterState),
       (AWX.AWXAdapter.request env st).attempts ≤ 2) := by
  refine ⟨?_, ?_, ?_, ?_⟩
  · intro env st h0 h1
    unfold AWX.AWXAdapter.request
    rw [h0]
    simp only [if_pos rfl, AWX.AWXAdapter.get_token]
    rw [if_neg (by omega : ¬ env.code 1 ≥ 400)]
    exact ⟨rfl, rfl, rfl, rfl⟩
  · intro env st h0 h1
    unfold AWX.AWXAdapter.request
    rw [h0, h1]
    simp only [if_pos rfl]
    rw [if_pos (by omega : (401 : Nat) ≥ 400)]
    exact ⟨rfl, rfl⟩
  · intro env st h0
    unfold AWX.AWXAdapter.request
    rw [if_neg h0]
  · intro env st
    unfold AWX.AWXAdapter.request
    by_cases h0 : env.code 0 = 401
    · simp only [if_pos h0]
      exact Nat.le_refl 2
    · simp only [if_neg h0]
      exact Nat.le_succ 1

namespace AWX

/-- Adapter state with no stored token. -/
def adapter_st0 : AdapterState := ⟨none, none, 0⟩

/-- A backend returning one 401 then 200. -/
def adapter_env_one401 : AdapterEnv :=
  ⟨0, fun k => "token" ++ toString k, fun a => if a = 0 then 401 else 200⟩

/-- A backend returning two consecutive 401 responses. -/
def adapter_env_two401 : AdapterEnv :=
  ⟨0, fun k => "token" ++ toString k, fun _ => 401⟩

/-- A backend that succeeds immediately. -/
def adapter_env_ok : AdapterEnv :=
  ⟨0, fun k => "token" ++ toString k, fun _ => 200⟩

end AWX

/-- C6, witness: the theorem applied to concrete backends — one 401 then
success (transparent retry with a fresh token), two 401s (auth error after
the second attempt), and an immediate success (single attempt). -/
theorem adapter_auth_retry_witness :
    ((AWX.AWXAdapter.request AWX.adapter_env_one401 AWX.adapter_st0).result
       = .ok 1
     ∧ (AWX.AWXAdapter.request AWX.adapter_env_one401
         AWX.adapter_st0).attempts = 2
     ∧ (AWX.AWXAdapter.request AWX.adapter_env_one401
         AWX.adapter_st0).tokens_used
       = [(AWX.AWXAdapter.get_token AWX.adapter_env_one401
            AWX.adapter_st0).1,
          AWX.adapter_env_one401.fresh (AWX.AWXAdapter.get_token
            AWX.adapter_env_one401 AWX.adapter_st0).2.refreshes]
     ∧ (AWX.AWXAdapter.request AWX.adapter_env_one401
         AWX.adapter_st0).state.refreshes
       = (AWX.AWXAdapter.get_token AWX.adapter_env_one401
           AWX.adapter_st0).2.refreshes + 1)
    ∧ ((AWX.AWXAdapter.request AWX.adapter_env_two401 AWX.adapter_st0).result
       = .error 401
     ∧ (AWX.AWXAdapter.request AWX.adapter_env_two401
         AWX.adapter_st0).attempts = 2)
    ∧ (AWX.AWXAdapter.request AWX.adapter_env_ok AWX.adapter_st0).attempts
       = 1 :=
  ⟨adapter_auth_retry.1 AWX.adapter_env_one401 AWX.adapter_st0 rfl
      (by decide),
   adapter_auth_retry.2.1 AWX.adapter_env_two401 AWX.adapter_st0 rfl rfl,
   adapter_auth_retry.2.2.1 AWX.adapter_env_ok AWX.adapter_st0 (by decide)⟩

namespace AWX

/-- Creation-data frame between an original job and a later version of it:
`requested_at` is unchanged and `request` differs at most in
`job_template_id`. -/
def ReqFrame (j0 j : AWXJob) : Prop :=
  j.requested_at = j0.requested_at
  ∧ j.request = { j0.request with job_template_id := j.request.job_template_id }

theorem ReqFrame.refl (j0 : AWXJob) : ReqFrame j0 j0 := ⟨rfl, rfl⟩

/-- A step that preserves `requested_at` and the whole `request` preserves
the frame. -/
theorem ReqFrame.preserve {j0 j1 j2 : AWXJob} (h : ReqFrame j0 j1)
    (h3 : j2.requested_at = j1.requested_at) (h4 : j2.request = j1.request) :
    ReqFrame j0 j2 := by
  obtain ⟨h1, h2⟩ := h
  refine ⟨h3.trans h1, ?_⟩
  rw [h4]
  exact h2

/-- Overwriting only `request.job_template_id` preserves the frame. -/
theorem ReqFrame.set_tid {j0 j1 : AWXJob} (h : ReqFrame j0 j1)
    (t : Option Int) (rest : AWXJob)
    (hrest : rest.requested_at = j1.requested_at)
    (hreq : rest.request = { j1.request with job_template_id := t }) :
    ReqFrame j0 rest := by
  obtain ⟨h1, h2⟩ := h
  refine ⟨hrest.trans h1, ?_⟩
  rw [hreq, h2]

/-- One `update_status` call on a store holding an AWX record under `id`:
the record stays AWX-kind with `requested_at` and `request` untouched, the
purge clock and write flag are untouched, and the returned value is either
the persistence exception or exactly the new record. -/
theorem step_update (retention : Int) (now : Time) (s : Store) (id : UUID)
    (jc : AWXJob) (lp : Time) (st : AWXAgentJobStatus) (msg : Option String)
    (kw : ResultUpdates)
    (hj : alist_lookup s.jobs id = some (.awx jc))
    (hlp : s.last_purge = some lp) (hrec : now - lp < 60) :
    ∃ jc2 : AWXJob,
      alist_lookup (JobManager.update_status retention now s id st msg
        kw).1.jobs id = some (.awx jc2)
      ∧ (JobManager.update_status retention now s id st msg kw).1.last_purge
        = some lp
      ∧ (JobManager.update_status retention now s id st msg kw).1.disk_ok
        = s.disk_ok
      ∧ jc2.requested_at = jc.requested_at
      ∧ jc2.request = jc.request
      ∧ ((JobManager.update_status retention now s id st msg kw).2
          = .error ()
        ∨ (JobManager.update_status retention now s id st msg kw).2
          = .ok (some (.awx jc2))) := by
  obtain ⟨jc2, heq, hra, hreq⟩ := transitioned_awx jc st msg kw now
  obtain ⟨hmem, hlp2, hdok, -, -, -⟩ :=
    JobManager.update_status_frame retention now s id st msg kw (.awx jc) lp
      hj hlp hrec
  have hret := JobManager.update_status_ret retention now s id st msg kw
    (.awx jc) hj
  rw [heq] at hmem hret
  exact ⟨jc2, hmem, hlp2, hdok, hra, hreq, hret⟩

/-- Writing back a mutated AWX record over an existing entry. -/
theorem step_set (s : Store) (id : UUID) (jc jnew : AWXJob)
    (hj : alist_lookup s.jobs id = some (.awx jc)) :
    alist_lookup (set_awx s id jnew).jobs id = some (.awx jnew) := by
  rw [set_awx_lookup, hj]
  rfl

end AWX

namespace AWX

/-- The finalization stage keeps the record AWX-kind with its creation
data untouched (it only writes result fields and runs terminal
`update_status` calls). -/
theorem awx_finalize_frame (env : AWXDriverEnv) (retention : Int)
    (now : Time) (s : Store) (job_id : UUID) (job : AWXJob)
    (awx_job_id : Int) (job_data : List (String × Json))
    (st1 : AWXJobStatus) (lp : Time)
    (hj : alist_lookup s.jobs job_id = some (.awx job))
    (hlp : s.last_purge = some lp) (hrec : now - lp < 60) :
    ∃ jb : AWXJob,
      alist_lookup (awx_finalize env retention now s job_id job awx_job_id
        job_data st1).1.jobs job_id = some (.awx jb)
      ∧ (awx_finalize env retention now s job_id job awx_job_id
          job_data st1).1.last_purge = some lp
      ∧ jb.requested_at = job.requested_at
      ∧ jb.request = job.request := by
  unfold awx_finalize
  rcases hout : env.output awx_job_id with o | e
  · dsimp only
    by_cases hsucc : st1 = .successful
    · rw [if_pos hsucc]
      obtain ⟨jb, hmem, hlpb, -, hra, hreq, -⟩ :=
        step_update retention now _ job_id _ lp .completed _
          ResultUpdates.empty (step_set s job_id job _ hj) hlp hrec
      exact ⟨jb, hmem, hlpb, hra, hreq⟩
    · rw [if_neg hsucc]
      obtain ⟨jb, hmem, hlpb, -, hra, hreq, -⟩ :=
        step_update retention now _ job_id _ lp .failed _
          ResultUpdates.empty
          (step_set _ job_id _ _ (step_set s job_id job _ hj)) hlp hrec
      exact ⟨jb, hmem, hlpb, hra, hreq⟩
  · dsimp only
    by_cases hsucc : st1 = .successful
    · rw [if_pos hsucc]
      obtain ⟨jb, hmem, hlpb, -, hra, hreq, -⟩ :=
        step_update retention now _ job_id _ lp .completed _
          ResultUpdates.empty (step_set s job_id job _ hj) hlp hrec
      exact ⟨jb, hmem, hlpb, hra, hreq⟩
    · rw [if_neg hsucc]
      obtain ⟨jb, hmem, hlpb, -, hra, hreq, -⟩ :=
        step_update retention now _ job_id _ lp .failed _
          ResultUpdates.empty
          (step_set _ job_id _ _ (step_set s job_id job _ hj)) hlp hrec
      exact ⟨jb, hmem, hlpb, hra, hreq⟩

end AWX

namespace AWX

/-- The monitoring stage keeps the record AWX-kind with its creation data
untouched. -/
theorem awx_stage_monitor_frame (env : AWXDriverEnv) (retention : Int)
    (now : Time) (s : Store) (job_id : UUID) (job : AWXJob)
    (awx_job_id : Int) (lp : Time)
    (hj : alist_lookup s.jobs job_id = some (.awx job))
    (hlp : s.last_purge = some lp) (hrec : now - lp < 60) :
    ∃ jb : AWXJob,
      alist_lookup (awx_stage_monitor env retention now s job_id job
        awx_job_id).1.jobs job_id = some (.awx jb)
      ∧ (awx_stage_monitor env retention now s job_id job
          awx_job_id).1.last_purge = some lp
      ∧ jb.requested_at = job.requested_at
      ∧ jb.request = job.request := by
  unfold awx_stage_monitor
  rcases hwait : env.wait awx_job_id with e | job_data
  · exact ⟨job, hj, hlp, rfl, rfl⟩
  · dsimp only
    rcases hst : (job_data_status job_data "error").bind
        (fun x => match AWXJobStatus.ofStr x with
          | some st => Except.ok st
          | none => Except.error (x ++ " is not a valid AWXJobStatus")) with
        e | st1
    · exact ⟨job, hj, hlp, rfl, rfl⟩
    · exact awx_finalize_frame env retention now s job_id job awx_job_id
        job_data st1 lp hj hlp hrec

/-- The post-launch stage keeps the record AWX-kind with its creation data
untouched. -/
theorem awx_stage_launched_frame (env : AWXDriverEnv) (retention : Int)
    (now : Time) (s : Store) (job_id : UUID) (job : AWXJob)
    (awx_job_id : Int) (st0 : AWXJobStatus) (lp : Time)
    (hj : alist_lookup s.jobs job_id = some (.awx job))
    (hlp : s.last_purge = some lp) (hrec : now - lp < 60) :
    ∃ jb : AWXJob,
      alist_lookup (awx_stage_launched env retention now s job_id job
        awx_job_id st0).1.jobs job_id = some (.awx jb)
      ∧ (awx_stage_launched env retention now s job_id job
          awx_job_id st0).1.last_purge = some lp
      ∧ jb.requested_at = job.requested_at
      ∧ jb.request = job.request := by
  unfold awx_stage_launched
  dsimp only
  rcases hu : JobManager.update_status retention now
      (set_awx s job_id { job with awx_job_id := some awx_job_id,
                                   awx_job_status := some st0 })
      job_id .monitoring
      (some ("Job launched with AWX job ID " ++ toString awx_job_id ++ "."))
      ⟨some (some awx_job_id), some (some st0)⟩ with ⟨s3, r3⟩
  obtain ⟨jc2, hmem, hlpb, -, hra, hreq, hret⟩ :=
    step_update retention now
      (set_awx s job_id { job with awx_job_id := some awx_job_id,
                                   awx_job_status := some st0 })
      job_id _ lp .monitoring
      (some ("Job launched with AWX job ID " ++ toString awx_job_id ++ "."))
      ⟨some (some awx_job_id), some (some st0)⟩
      (step_set s job_id job _ hj) hlp hrec
  rw [hu] at hmem hlpb hret
  rcases hret with hre | hro
  · have he : r3 = .error () := hre
    subst he
    exact ⟨jc2, hmem, hlpb, hra, hreq⟩
  · have ho : r3 = .ok (some (.awx jc2)) := hro
    subst ho
    dsimp only
    obtain ⟨jb, hmem2, hlp2, hra2, hreq2⟩ :=
      awx_stage_monitor_frame env retention now s3 job_id jc2 awx_job_id lp
        hmem hlpb hrec
    exact ⟨jb, hmem2, hlp2, hra2.trans hra, hreq2.trans hreq⟩

end AWX

namespace AWX

/-- The launch stage keeps the record AWX-kind with its creation data
untouched. -/
theorem awx_stage_launch_frame (env : AWXDriverEnv) (retention : Int)
    (now : Time) (s : Store) (job_id : UUID) (job : AWXJob)
    (template_id : Int) (template : JobTemplateInfo) (lp : Time)
    (hj : alist_lookup s.jobs job_id = some (.awx job))
    (hlp : s.last_purge = some lp) (hrec : now - lp < 60) :
    ∃ jb : AWXJob,
      alist_lookup (awx_stage_launch env retention now s job_id job
        template_id template).1.jobs job_id = some (.awx jb)
      ∧ (awx_stage_launch env retention now s job_id job
          template_id template).1.last_purge = some lp
      ∧ jb.requested_at = job.requested_at
      ∧ jb.request = job.request := by
  unfold awx_stage_launch
  dsimp only
  rcases hu : JobManager.update_status retention now s job_id .launching
      (some ("Launching job template " ++ template.name ++ "."))
      ResultUpdates.empty with ⟨s2, r2⟩
  obtain ⟨jc2, hmem, hlpb, -, hra, hreq, hret⟩ :=
    step_update retention now s job_id job lp .launching
      (some ("Launching job template " ++ template.name ++ "."))
      ResultUpdates.empty hj hlp hrec
  rw [hu] at hmem hlpb hret
  rcases hret with hre | hro
  · have he : r2 = .error () := hre
    subst he
    exact ⟨jc2, hmem, hlpb, hra, hreq⟩
  · have ho : r2 = .ok (some (.awx jc2)) := hro
    subst ho
    dsimp only
    rcases hla : env.launch template_id with e | awx_job_data
    · exact ⟨jc2, hmem, hlpb, hra, hreq⟩
    · dsimp only
      rcases hid : Json.getField awx_job_data "id" with _ | jid
      · exact ⟨jc2, hmem, hlpb, hra, hreq⟩
      · rcases jid with _ | jstr | n | jb | jarr | jobj
        · exact ⟨jc2, hmem, hlpb, hra, hreq⟩
        · exact ⟨jc2, hmem, hlpb, hra, hreq⟩
        · dsimp only
          by_cases hz : n = 0
          · rw [if_pos hz]
            exact ⟨jc2, hmem, hlpb, hra, hreq⟩
          · rw [if_neg hz]
            rcases hst : (job_data_status awx_job_data "new").bind
                (fun x => match AWXJobStatus.ofStr x with
                  | some st => Except.ok st
                  | none =>
                    Except.error (x ++ " is not a valid AWXJobStatus")) with
                e | st0
            · exact ⟨jc2, hmem, hlpb, hra, hreq⟩
            · obtain ⟨jb2, hmem2, hlp2, hra2, hreq2⟩ :=
                awx_stage_launched_frame env retention now s2 job_id jc2 n
                  st0 lp hmem hlpb hrec
              exact ⟨jb2, hmem2, hlp2, hra2.trans hra, hreq2.trans hreq⟩
        · exact ⟨jc2, hmem, hlpb, hra, hreq⟩
        · exact ⟨jc2, hmem, hlpb, hra, hreq⟩
        · exact ⟨jc2, hmem, hlpb, hra, hreq⟩

/-- The template-verification stage keeps the record AWX-kind with its
creation data untouched. -/
theorem awx_stage_resolved_frame (env : AWXDriverEnv) (retention : Int)
    (now : Time) (s : Store) (job_id : UUID) (job : AWXJob)
    (template_id : Int) (lp : Time)
    (hj : alist_lookup s.jobs job_id = some (.awx job))
    (hlp : s.last_purge = some lp) (hrec : now - lp < 60) :
    ∃ jb : AWXJob,
      alist_lookup (awx_stage_resolved env retention now s job_id job
        template_id).1.jobs job_id = some (.awx jb)
      ∧ (awx_stage_resolved env retention now s job_id job
          template_id).1.last_purge = some lp
      ∧ jb.requested_at = job.requested_at
      ∧ jb.request = job.request := by
  unfold awx_stage_resolved
  rcases hgt : env.get_template template_id with e | otpl
  · exact ⟨job, hj, hlp, rfl, rfl⟩
  · rcases otpl with _ | template
    · exact ⟨job, hj, hlp, rfl, rfl⟩
    · exact awx_stage_launch_frame env retention now s job_id job
        template_id template lp hj hlp hrec

end AWX

namespace AWX

/-- The whole try-block of `process_awx_job`: the record stays AWX-kind,
`requested_at` is never changed, and `request` changes at most in
`job_template_id` (written during name resolution). -/
theorem awx_body_frame (env : AWXDriverEnv) (retention : Int) (now : Time)
    (s : Store) (job_id : UUID) (j0 : AWXJob) (lp : Time)
    (hj : alist_lookup s.jobs job_id = some (.awx j0))
    (hlp : s.last_purge = some lp) (hrec : now - lp < 60) :
    ∃ jb : AWXJob,
      alist_lookup (awx_body env retention now s job_id j0).1.jobs job_id
        = some (.awx jb)
      ∧ (awx_body env retention now s job_id j0).1.last_purge = some lp
      ∧ ReqFrame j0 jb := by
  unfold awx_body
  rcases hu1 : JobManager.update_status retention now s job_id .validating
      (some "Validating job template.") ResultUpdates.empty with ⟨s1, r1⟩
  obtain ⟨jc1, hmem1, hlp1, -, hra1, hreq1, hret1⟩ :=
    step_update retention now s job_id j0 lp .validating
      (some "Validating job template.") ResultUpdates.empty hj hlp hrec
  rw [hu1] at hmem1 hlp1 hret1
  have hframe1 : ReqFrame j0 jc1 := (ReqFrame.refl j0).preserve hra1 hreq1
  rcases hret1 with hr1e | hr1o
  · have he : r1 = .error () := hr1e
    subst he
    exact ⟨jc1, hmem1, hlp1, hframe1⟩
  · have ho : r1 = .ok (some (.awx jc1)) := hr1o
    subst ho
    dsimp only
    rcases htid : jc1.request.job_template_id with _ | n
    · dsimp only
      rcases hse : env.search (jc1.request.job_template_name.getD "") with
          _ | t
      · exact ⟨jc1, hmem1, hlp1, hframe1⟩
      · dsimp only
        have hset := step_set s1 job_id jc1
          { jc1 with request :=
              { jc1.request with job_template_id := some t.id } } hmem1
        have hframe2 : ReqFrame j0 { jc1 with request :=
            { jc1.request with job_template_id := some t.id } } :=
          hframe1.set_tid (some t.id) _ rfl rfl
        obtain ⟨jb, hmem2, hlp2, hra2, hreq2⟩ :=
          awx_stage_resolved_frame env retention now _ job_id _ t.id lp hset
            hlp1 hrec
        exact ⟨jb, hmem2, hlp2, hframe2.preserve hra2 hreq2⟩
    · dsimp only
      by_cases hz : n ≠ 0
      · rw [if_pos hz]
        dsimp only
        have hset := step_set s1 job_id jc1 jc1 hmem1
        obtain ⟨jb, hmem2, hlp2, hra2, hreq2⟩ :=
          awx_stage_resolved_frame env retention now _ job_id _ n lp hset
            hlp1 hrec
        exact ⟨jb, hmem2, hlp2, hframe1.preserve hra2 hreq2⟩
      · rw [if_neg hz]
        dsimp only
        rcases hse : env.search (jc1.request.job_template_name.getD "") with
            _ | t
        · exact ⟨jc1, hmem1, hlp1, hframe1⟩
        · dsimp only
          have hset := step_set s1 job_id jc1
            { jc1 with request :=
                { jc1.request with job_template_id := some t.id } } hmem1
          have hframe2 : ReqFrame j0 { jc1 with request :=
              { jc1.request with job_template_id := some t.id } } :=
            hframe1.set_tid (some t.id) _ rfl rfl
          obtain ⟨jb, hmem2, hlp2, hra2, hreq2⟩ :=
            awx_stage_resolved_frame env retention now _ job_id _ t.id lp
              hset hlp1 hrec
          exact ⟨jb, hmem2, hlp2, hframe2.preserve hra2 hreq2⟩

end AWX

namespace AWX

/-- An AWX job submitted with only a template name (no template id). -/
def awx_byname : AWXJob :=
  ⟨4, .received, 100, none, ⟨none, some "deploy", [], none, none, []⟩,
   none, none, none, none, none, none, none, [], none, none⟩

/-- Collaborators for the C9 scenario: the name search resolves to
template 9 and the launched job 101 runs to success. -/
def c9_env : AWXDriverEnv :=
  ⟨fun _ => some ⟨9, "deploy"⟩,
   fun n => .ok (some ⟨n, "deploy"⟩),
   fun _ => .ok [("id", .num 101), ("status", .str "running")],
   fun _ => .ok [("status", .str "successful")],
   fun _ => .ok "all good"⟩

/-- The store right after submitting `awx_byname`. -/
def store_c9 : Store := ⟨[(4, .awx awx_byname)], [], true, some 1000⟩

/-- Template id recorded inside the request of a stored AWX record. -/
def awx_request_tid : Option JobRecord → Option (Option Int)
  | some (.awx j) => some j.request.job_template_id
  | _ => none

end AWX

/-- C9, counterexample: the workflow driver mutates the request payload
after creation.  The job `awx_byname` was created with
`request.job_template_id = None`; after `process_awx_job` resolves the
template by name (main.py line 176) the stored record's request carries
`job_template_id = 9`. -/
theorem driver_mutates_request_counterexample :
    AWX.awx_request_tid (alist_lookup (AWX.process_awx_job AWX.c9_env 30
      1000 AWX.store_c9 4).1.jobs 4) = some (some 9)
    ∧ AWX.awx_byname.request.job_template_id = none
    ∧ some (9 : Int) ≠ (none : Option Int) :=
  ⟨rfl, rfl, by decide⟩

/-- C9, amended: creation-timestamp immutability holds in full, and
request immutability holds for the store but not for the driver.  Every
record returned by `update_status` has the same `requested_at` and the
same `request` (of the same kind) as the stored record it updated; and
for every environment, `process_awx_job` leaves the record AWX-kind with
`requested_at` unchanged and changes the request at most in
`job_template_id`, the field the validation phase overwrites with the
resolved template id when the submitter supplied only a name. -/
theorem request_creation_data_immutability :
    (∀ (retention : Int) (now : Time) (s : AWX.Store) (id : UUID)
       (st : AWX.AWXAgentJobStatus) (msg : Option String)
       (kw : AWX.ResultUpdates) (j j2 : AWX.JobRecord),
       alist_lookup s.jobs id = some j →
       (AWX.JobManager.update_status retention now s id st msg kw).2
         = .ok (some j2) →
       j2.request_data = j.request_data)
    ∧ (∀ (env : AWX.AWXDriverEnv) (retention : Int) (now : Time)
       (s : AWX.Store) (id : UUID) (j0 : AWX.AWXJob) (lp : Time),
       alist_lookup s.jobs id = some (.awx j0) →
       s.last_purge = some lp →
       now - lp < 60 →
       ∃ ja : AWX.AWXJob,
         alist_lookup (AWX.process_awx_job env retention now s id).1.jobs id
           = some (.awx ja)
         ∧ ja.requested_at = j0.requested_at
         ∧ ja.request
           = { j0.request with job_template_id := ja.request.job_template_id }) := by
  constructor
  · intro retention now s id st msg kw j j2 hj h2
    rcases AWX.JobManager.update_status_ret retention now s id st msg kw j hj
      with he | hok
    · rw [h2] at he
      exact Except.noConfusion he
    · have heq := Option.some.inj (Except.ok.inj (h2.symm.trans hok))
      rw [heq]
      exact AWX.transitioned_request_data j st msg kw now
  · intro env retention now s id j0 lp hj hlp hrec
    unfold AWX.process_awx_job
    rw [AWX.JobManager.get_job_mem retention now s id (.awx j0) hj]
    dsimp only
    rcases hb : AWX.awx_body env retention now s id j0 with ⟨sB, rB⟩
    obtain ⟨jb, hmem, hlpB, hframe⟩ :=
      AWX.awx_body_frame env retention now s id j0 lp hj hlp hrec
    rw [hb] at hmem hlpB
    rcases rB with e | u
    · dsimp only
      have hm : alist_lookup sB.jobs id = some (.awx jb) := hmem
      have hmut := AWX.set_awx_error_lookup sB id e jb hm
      obtain ⟨jc2, hmem2, -, -, hra2, hreq2, -⟩ :=
        AWX.step_update retention now (AWX.set_awx_error sB id e) id
          { jb with awx_error := some e } lp .failed
          (some ("Job processing failed: " ++ e)) AWX.ResultUpdates.empty
          hmut hlpB hrec
      have hframe2 : AWX.ReqFrame j0 jc2 := hframe.preserve hra2 hreq2
      exact ⟨jc2, hmem2, hframe2.1, hframe2.2⟩
    · exact ⟨jb, hmem, hframe.1, hframe.2⟩

/-- C9, witness: the amended theorem applied to a concrete non-terminal
transition on `store_c1` and to the concrete driver run on `store_c9`. -/
theorem request_creation_data_immutability_witness :
    (((AWX.JobRecord.awx AWX.awx_done).transitioned .monitoring none
        AWX.ResultUpdates.empty 1000).request_data
      = (AWX.JobRecord.awx AWX.awx_done).request_data)
    ∧ (∃ ja : AWX.AWXJob,
        alist_lookup (AWX.process_awx_job AWX.c9_env 30 1000
          AWX.store_c9 4).1.jobs 4 = some (.awx ja)
        ∧ ja.requested_at = AWX.awx_byname.requested_at
        ∧ ja.request = { AWX.awx_byname.request with
            job_template_id := ja.request.job_template_id }) :=
  ⟨request_creation_data_immutability.1 30 1000 AWX.store_c1 4 .monitoring
      none AWX.ResultUpdates.empty (.awx AWX.awx_done)
      ((AWX.JobRecord.awx AWX.awx_done).transitioned .monitoring none
        AWX.ResultUpdates.empty 1000) rfl rfl,
   request_creation_data_immutability.2 AWX.c9_env 30 1000 AWX.store_c9 4
      AWX.awx_byname 1000 rfl rfl (by decide)⟩
